import Mathlib

/-! # tinytracer.c : a shallow embedding and its verified properties

The C program works on `float`.  The definitions are polymorphic in the scalar
type `F` and use only its operations (`+ - * /`, negation, `<`, `≤`, the
constants, the integer part), so the same translation runs in two arithmetics:

* over `ℝ` (and, executably, over `ℚ`), i.e. in exact arithmetic, with
  `Real.sqrt` for `sqrtf` and the real power function for `powf`;
* over `F32`, a model of binary32 in which every operation is rounded to
  nearest, with `f32_sqrt` and `f32_powf`.  Infinities and NaN are outside
  that model.

Conventions of the translation

* a `float[3]` array is a `Vec3`;
* an array argument together with its length argument (`s, len` and
  `l, l_size`) is a `List` of exactly that length;
* an output parameter that the callee may leave unwritten is an `Option`
  in the result (`none` = not written);
* behaviour the C standard leaves undefined (reading past the end of the
  sphere array, converting an out-of-range `float` to `unsigned char`) is
  the result `none`.
-/

namespace TinyTracer

/-! ## Data model (lines 8-25) -/

/-- A `float[3]`: components `[0]`, `[1]`, `[2]`. -/
@[ext]
structure Vec3 (F : Type) where
  x : F
  y : F
  z : F
deriving DecidableEq

/-- The struct `Light` (lines 8-11). -/
structure Light (F : Type) where
  position : Vec3 F
  intensity : F
deriving DecidableEq

/-- The struct `Material` (lines 13-18); `albedo0`, `albedo1` are `albedo[0]`, `albedo[1]`. -/
structure Material (F : Type) where
  diffuse_color : Vec3 F
  albedo0 : F
  albedo1 : F
  specular_exponent : F
deriving DecidableEq

/-- The struct `Sphere` (lines 20-25). -/
structure Sphere (F : Type) where
  center : Vec3 F
  radius : F
  material : Material F
deriving DecidableEq

/-- Truncation of a non-negative scalar to its integer part, the value part of the C
conversion from `float` to an integer type. -/
class HasTrunc (F : Type) where
  /-- The integer part of a non-negative scalar. -/
  trunc : F → Nat

/-- Over an ordered field with a floor function the integer part is the floor. -/
instance floorTrunc {F : Type} [OrderedSemiring F] [FloorSemiring F] : HasTrunc F :=
  ⟨Nat.floor⟩

section Defs

variable {F : Type} [Zero F] [One F] [NatCast F] [OfScientific F]
  [Add F] [Sub F] [Mul F] [Div F] [Neg F] [LT F] [LE F]
  [DecidableRel ((· < ·) : F → F → Prop)] [DecidableRel ((· ≤ ·) : F → F → Prop)]
  [HasTrunc F]

/-! ## Vector helpers of `tinysupport.h` -/

/-- Modelled from the spec: `arrSub` of tinysupport.h (not among the sources), spec 4.1
`sub(a,b) -> c`, element-wise. -/
def arrSub (a b : Vec3 F) : Vec3 F := ⟨a.x - b.x, a.y - b.y, a.z - b.z⟩

/-- Modelled from the spec: `arrAdd` of tinysupport.h (not among the sources), spec 4.1
`add(a,b) -> c`, element-wise. -/
def arrAdd (a b : Vec3 F) : Vec3 F := ⟨a.x + b.x, a.y + b.y, a.z + b.z⟩

/-- Modelled from the spec: `arrScalarMult` of tinysupport.h (not among the sources), spec 4.1
`scale(v, s) -> c`, element-wise multiply by a scalar. -/
def arrScalarMult (v : Vec3 F) (k : F) : Vec3 F := ⟨v.x * k, v.y * k, v.z * k⟩

/-- Modelled from the spec: `dotProduct` of tinysupport.h (not among the sources), spec 4.1
`dot(a,b) -> scalar`, sum of element-wise products. -/
def dotProduct (a b : Vec3 F) : F := a.x * b.x + a.y * b.y + a.z * b.z

/-- Euclidean norm, the square root of the dot product of a vector with itself. -/
def vecNorm (sqrtf : F → F) (v : Vec3 F) : F := sqrtf (dotProduct v v)

/-- Modelled from the spec: `normalize` of tinysupport.h (not among the sources), spec 4.1
`normalize(v) -> unit vector`: divide by the Euclidean norm.  The spec leaves the zero vector
undefined; here division by zero follows the field's convention. -/
def normalize (sqrtf : F → F) (v : Vec3 F) : Vec3 F :=
  ⟨v.x / vecNorm sqrtf v, v.y / vecNorm sqrtf v, v.z / vecNorm sqrtf v⟩

/-- Modelled from the spec: `reflect` of tinysupport.h (not among the sources), spec 4.1
`reflect(incident, normal) -> reflected`, `incident - normal * 2*dot(incident, normal)`.  The
call of line 108 passes the same array as input and as output; the model is the value the
spec gives, with the dot product taken on the incoming vector. -/
def reflect (incident normal : Vec3 F) : Vec3 F :=
  arrSub incident (arrScalarMult normal (2 * dotProduct incident normal))

/-! ## `ray_intersect` (lines 27-59) -/

/-- The test `t0 < 0` of line 53.  In the source `t0` is the parameter of type `float *`, so
the test compares the pointer (an unsigned machine address) with zero, not the float it
points to. -/
def ptr_lt_zero (t0 : Nat) : Bool := decide (t0 < 0)

/-- The function `ray_intersect` (lines 27-59).  `t0` is the address passed for the output
cell; the result is `some d` when the function returns `true` with `*t0 = d`, and `none` when
it returns `false` (no caller reads the cell in that case). -/
def ray_intersect (sqrtf : F → F) (t0 : Nat) (origin dir : Vec3 F) (s : Sphere F) : Option F :=
  let L := arrSub s.center origin
  let tca := dotProduct L dir
  let d2 := dotProduct L L - tca * tca
  if d2 > s.radius * s.radius then none
  else
    let thc := sqrtf (s.radius * s.radius - d2)
    let cell := tca - thc
    let t1 := tca + thc
    let cell := if ptr_lt_zero t0 then t1 else cell
    if cell < 0 then none else some cell

/-! ## `scene_intersect` (lines 61-86) -/

/-- The output parameters `hit`, `N` and `*ptr_m` of `scene_intersect`. -/
structure HitRecord (F : Type) where
  hit : Vec3 F
  N : Vec3 F
  m : Material F
deriving DecidableEq

/-- The loop state of `scene_intersect`: the local `sphere_dist` and the output parameters
(`none` while no iteration has written them). -/
structure ScanState (F : Type) where
  sphere_dist : F
  out : Option (HitRecord F)

/-- The constant `INT_MAX` of limits.h for a 32-bit `int`. -/
def INT_MAX : Nat := 2147483647

/-- The values lines 70-82 write to the output parameters for sphere `si` met at distance
`dist_i`: the hit point `origin + dir*dist_i`, the normal `normalize(hit - center)` and the
material of `si`. -/
def record_at (sqrtf : F → F) (origin dir : Vec3 F) (si : Sphere F) (dist_i : F) :
    HitRecord F :=
  ⟨arrAdd origin (arrScalarMult dir dist_i),
    normalize sqrtf (arrSub (arrAdd origin (arrScalarMult dir dist_i)) si.center),
    si.material⟩

/-- One iteration of the loop of lines 64-84 on sphere `si`; `t0` is the address of the
local `dist_i`. -/
def scene_step (sqrtf : F → F) (t0 : Nat) (origin dir : Vec3 F)
    (st : ScanState F) (si : Sphere F) : ScanState F :=
  match ray_intersect sqrtf t0 origin dir si with
  | some dist_i =>
    if dist_i < st.sphere_dist then
      let dirDist := arrScalarMult dir dist_i
      let hit := arrAdd origin dirDist
      let hitMinusCenter := normalize sqrtf (arrSub hit si.center)
      ⟨dist_i, some ⟨hit, hitMinusCenter, si.material⟩⟩
    else st
  | none => st

/-- The loop of lines 62-84, run over the `len` spheres `s`. -/
def scene_scan (sqrtf : F → F) (t0 : Nat) (origin dir : Vec3 F) (s : List (Sphere F)) :
    ScanState F :=
  s.foldl (scene_step sqrtf t0 origin dir) ⟨(INT_MAX : F), none⟩

/-- The function `scene_intersect` (lines 61-86): the returned flag and the final content of
the output parameters. -/
def scene_intersect (sqrtf : F → F) (t0 : Nat) (origin dir : Vec3 F) (s : List (Sphere F)) :
    Bool × Option (HitRecord F) :=
  let st := scene_scan sqrtf t0 origin dir s
  (decide (st.sphere_dist < 1000), st.out)

/-! ## `cast_ray` (lines 88-122) -/

/-- Three `unsigned char` values, `colorArr[0..2]`. -/
structure Color where
  r : Nat
  g : Nat
  b : Nat
deriving DecidableEq

/-- Conversion of a `float` to `unsigned char`: the value is truncated toward zero; the
conversion is undefined when the truncated value is not in `0..255`. -/
def float_to_uchar (v : F) : Option Nat :=
  if -1 < v ∧ v < 256 then some (HasTrunc.trunc v) else none

/-- The locals `diffuse_light_intensity` and `specular_light_intensity` of `cast_ray`. -/
structure LightAcc (F : Type) where
  diffuse_light_intensity : F
  specular_light_intensity : F

/-- One iteration of the light loop of lines 103-111. -/
def light_step (sqrtf : F → F) (powf : F → F → F) (point N dir : Vec3 F) (m : Material F)
    (acc : LightAcc F) (li : Light F) : LightAcc F :=
  let light_dir := normalize sqrtf (arrSub li.position point)
  let diffuse := acc.diffuse_light_intensity +
    li.intensity * (if 0 ≥ dotProduct light_dir N then 0 else dotProduct light_dir N)
  let tempArr := arrScalarMult light_dir (-1)
  let tempArr := reflect tempArr N
  let specHelper := dotProduct tempArr dir
  let specular := acc.specular_light_intensity +
    powf (if 0 > -specHelper then 0 else -specHelper) m.specular_exponent * li.intensity
  ⟨diffuse, specular⟩

/-- One colour channel of lines 116-118: the conditional expression (of type `float`)
converted to `unsigned char`. -/
def channel (c k : F) : Option Nat :=
  float_to_uchar (if c * k > 255 then 255 else c * k)

/-- The `else` branch of `cast_ray` (lines 99-118) for a written hit record. -/
def shade (sqrtf : F → F) (powf : F → F → F) (dir : Vec3 F) (l : List (Light F))
    (h : HitRecord F) : Option Color :=
  let acc := l.foldl (light_step sqrtf powf h.hit h.N dir h.m) ⟨0, 0⟩
  let k := acc.diffuse_light_intensity * h.m.albedo0 +
    acc.specular_light_intensity * h.m.albedo1
  match channel h.m.diffuse_color.x k, channel h.m.diffuse_color.y k,
      channel h.m.diffuse_color.z k with
  | some r, some g, some b => some ⟨r, g, b⟩
  | _, _, _ => none

/-- The function `cast_ray` (lines 88-122): the colour written to `colorArr`.  The sphere
array `s` is scanned with the literal length 3 of line 93; an array shorter than that is read
out of bounds. -/
def cast_ray (sqrtf : F → F) (powf : F → F → F) (t0 : Nat) (origin dir : Vec3 F)
    (s : List (Sphere F)) (l : List (Light F)) : Option Color :=
  if s.length < 3 then none
  else
    match scene_intersect sqrtf t0 origin dir (s.take 3) with
    | (false, _) => some ⟨5, 100, 250⟩
    | (true, some h) => shade sqrtf powf dir l h
    | (true, none) => none

/-! ## `render` (lines 124-153) -/

/-- The local `width` of `render` (line 128). -/
def width : Nat := 1024

/-- The local `height` of `render` (line 129). -/
def height : Nat := 768

/-- The local `fov` of `render` (line 134), `3.1415926535/2.`. -/
def fov : F := 3.1415926535 / 2

/-- The local `x` of line 139 for column `i`; `tan` is the function of math.h. -/
def camera_x (tan : F → F) (i : Nat) : F :=
  (2 * ((i : F) + 0.5) / (width : F) - 1) * tan (fov / 2) * (width : F) / (height : F)

/-- The local `y` of line 140 for row `j`. -/
def camera_y (tan : F → F) (j : Nat) : F :=
  -(2 * ((j : F) + 0.5) / (height : F) - 1) * tan (fov / 2)

/-- The array `dir` as initialised at line 142, `{x, y, -1}`: the un-normalized direction of
pixel (column `i`, row `j`). -/
def camera_dir (tan : F → F) (i j : Nat) : Vec3 F :=
  ⟨camera_x tan i, camera_y tan j, -1⟩

/-- The array `dir` after the `normalize` of line 143: the direction `render` passes to
`cast_ray`. -/
def camera_ray (sqrtf : F → F) (tan : F → F) (i j : Nat) : Vec3 F :=
  normalize sqrtf (camera_dir tan i j)

/-- The colour of pixel (column `i`, row `j`): the body of the inner loop, lines 139-147, with
the origin `{0,0,0}` of line 146. -/
def pixel (sqrtf : F → F) (powf : F → F → F) (tan : F → F) (t0 : Nat)
    (s : List (Sphere F)) (l : List (Light F)) (i j : Nat) : Option Color :=
  cast_ray sqrtf powf t0 ⟨0, 0, 0⟩ (camera_ray sqrtf tan i j) s l

/-- The bytes written by the `fprintf` of line 132, `"P6\n%d %d\n255\n"` with `width` and
`height`. -/
def ppm_header : List Nat :=
  (String.toList ("P6\n" ++ toString width ++ " " ++ toString height ++ "\n255\n")).map
    Char.toNat

/-- The order in which the loops of lines 136-137 visit the pixels, as pairs (column, row):
rows outermost. -/
def pixel_order : List (Nat × Nat) :=
  (List.range height).flatMap (fun j => (List.range width).map (fun i => (i, j)))

/-- The successive `fwrite` of line 148: three bytes per pixel, in the order visited; undefined
as soon as one pixel is. -/
def write_pixels (f : Nat → Nat → Option Color) : List (Nat × Nat) → Option (List Nat)
  | [] => some []
  | p :: ps =>
    match f p.1 p.2 with
    | none => none
    | some c => (write_pixels f ps).map (fun out => c.r :: c.g :: c.b :: out)

/-- The function `render` (lines 124-153): the content of the file it writes. -/
def render (sqrtf : F → F) (powf : F → F → F) (tan : F → F) (t0 : Nat)
    (s : List (Sphere F)) (l : List (Light F)) : Option (List Nat) :=
  (write_pixels (pixel sqrtf powf tan t0 s l) pixel_order).map (fun body => ppm_header ++ body)

/-! ## The scene of `main` (lines 155-183) -/

/-- The material `red` (line 156). -/
def red : Material F := ⟨⟨255, 0, 0⟩, 0.6, 0.3, 50⟩

/-- The material `pink` (line 157). -/
def pink : Material F := ⟨⟨150, 10, 150⟩, 0.9, 0.5, 50⟩

/-- The material `gold` (line 158). -/
def gold : Material F := ⟨⟨255, 195, 0⟩, 0.6, 0.4, 50⟩

/-- The sphere `smallGold` (line 162). -/
def smallGold : Sphere F := ⟨⟨-6, 0, -16⟩, 2, gold⟩

/-- The sphere `bigRed` (line 163). -/
def bigRed : Sphere F := ⟨⟨-1, -1.5, -12⟩, 3, red⟩

/-- The sphere `farPink` (line 164). -/
def farPink : Sphere F := ⟨⟨7, 5, -18⟩, 2, pink⟩

/-- The array `s` of `main` (lines 166-168). -/
def main_spheres : List (Sphere F) := [smallGold, bigRed, farPink]

/-- The light `left_light` (line 173). -/
def left_light : Light F := ⟨⟨-20, 20, 20⟩, 1.25⟩

/-- The light `top_light` (line 175). -/
def top_light : Light F := ⟨⟨0, 20, 0⟩, 1⟩

/-- The array `l` of `main` (lines 177-178). -/
def main_lights : List (Light F) := [left_light, top_light]

/-! ## The vectors handed to `normalize` -/

/-- The vector `hitMinusCenter` passed to `normalize` at line 76 by one loop iteration, if the
iteration updates the nearest hit. -/
def step_normalize_arg (sqrtf : F → F) (t0 : Nat) (origin dir : Vec3 F)
    (st : ScanState F) (si : Sphere F) : List (Vec3 F) :=
  match ray_intersect sqrtf t0 origin dir si with
  | some dist_i =>
    if dist_i < st.sphere_dist then
      [arrSub (arrAdd origin (arrScalarMult dir dist_i)) si.center]
    else []
  | none => []

/-- The vectors passed to `normalize` at line 76 during the loop of `scene_intersect`, started
in state `st`. -/
def scan_normalize_args (sqrtf : F → F) (t0 : Nat) (origin dir : Vec3 F) :
    ScanState F → List (Sphere F) → List (Vec3 F)
  | _, [] => []
  | st, si :: rest =>
    step_normalize_arg sqrtf t0 origin dir st si ++
      scan_normalize_args sqrtf t0 origin dir (scene_step sqrtf t0 origin dir st si) rest

/-- The vectors passed to `normalize` during one call of `cast_ray`: those of the scene query
of line 93, then on a hit the vector `light_dir` of line 105 for every light. -/
def cast_ray_normalize_args (sqrtf : F → F) (t0 : Nat) (origin dir : Vec3 F)
    (s : List (Sphere F)) (l : List (Light F)) : List (Vec3 F) :=
  scan_normalize_args sqrtf t0 origin dir ⟨(INT_MAX : F), none⟩ (s.take 3) ++
    match scene_intersect sqrtf t0 origin dir (s.take 3) with
    | (true, some h) => l.map (fun li => arrSub li.position h.hit)
    | _ => []

/-- The vectors passed to `normalize` while `render` computes pixel (column `i`, row `j`): the
camera direction of line 143, then those of `cast_ray`. -/
def pixel_normalize_args (sqrtf : F → F) (tan : F → F) (t0 : Nat)
    (s : List (Sphere F)) (l : List (Light F)) (i j : Nat) : List (Vec3 F) :=
  ⟨camera_x tan i, camera_y tan j, -1⟩ ::
    cast_ray_normalize_args sqrtf t0 ⟨0, 0, 0⟩ (camera_ray sqrtf tan i j) s l

end Defs

/-! ## Binary32 arithmetic

The second scalar type: finite `float` values with every operation rounded to nearest, ties
to even, on a 24-bit significand (exponent at least -126).  Infinities and NaN are not
represented: a result of magnitude `2^128` or more, a division by zero and the square root
of a negative number are outside this model.  The functions instantiated at this type are
`ray_intersect`, `scene_intersect` and `cast_ray`, whose arithmetic is all `float`; lines
139-140 of `render` compute in `double`. -/

/-- Number of binary digits of `n` (with enough `fuel`, `fuel = n` suffices). -/
def bit_length : Nat → Nat → Nat
  | 0, _ => 0
  | fuel + 1, n => if n = 0 then 0 else bit_length fuel (n / 2) + 1

/-- The binary exponent of a positive rational `a`: the integer `e` with
`2^e ≤ a < 2^(e+1)`. -/
def f32_exponent (a : ℚ) : ℤ :=
  let e0 : ℤ := (bit_length a.num.natAbs a.num.natAbs : ℤ) - (bit_length a.den a.den : ℤ)
  if (2 : ℚ) ^ e0 ≤ a then e0 else e0 - 1

/-- Rounding of a rational to the nearest integer, ties to the even one. -/
def round_half_even (n : ℚ) : ℤ :=
  if n - ⌊n⌋ < 1 / 2 then ⌊n⌋
  else if 1 / 2 < n - ⌊n⌋ then ⌊n⌋ + 1
  else if ⌊n⌋ % 2 = 0 then ⌊n⌋ else ⌊n⌋ + 1

/-- Rounding of a rational to binary32: the nearest multiple of `2^(e-23)`, where `e` is the
binary exponent of the argument (at least -126), ties to even. -/
def f32_round (q : ℚ) : ℚ :=
  if q = 0 then 0
  else (round_half_even (q / 2 ^ (max (f32_exponent |q|) (-126) - 23)) : ℚ)
    * 2 ^ (max (f32_exponent |q|) (-126) - 23)

/-- Integer square root by bits: with `r` a multiple of `2^b` and `r*r ≤ n`, the largest
`r + d`, `d < 2^b`, whose square is at most `n`. -/
def isqrt_bits (n : Nat) : Nat → Nat → Nat
  | 0, r => r
  | b + 1, r =>
    if (r + 2 ^ b) * (r + 2 ^ b) ≤ n then isqrt_bits n b (r + 2 ^ b) else isqrt_bits n b r

/-- The integer part of the square root of `n`. -/
def isqrt (n : Nat) : Nat := isqrt_bits n (bit_length n n / 2 + 1) 0

/-- The correctly rounded binary32 square root of a non-negative rational: the root is taken
to 200 binary places and, when inexact, replaced by a value strictly between it and the next
200-place number, which rounds the same way as the root. -/
def f32_sqrt_q (x : ℚ) : ℚ :=
  if x ≤ 0 then 0
  else if ((isqrt (Nat.floor (x * 4 ^ 200)) : ℚ) * isqrt (Nat.floor (x * 4 ^ 200))
      = x * 4 ^ 200) then
    f32_round ((isqrt (Nat.floor (x * 4 ^ 200)) : ℚ) / 2 ^ 200)
  else f32_round ((2 * (isqrt (Nat.floor (x * 4 ^ 200)) : ℚ) + 1) / 2 ^ 201)

/-- A finite `float`, given by its value. -/
structure F32 where
  val : ℚ
deriving DecidableEq

/-- The `float` zero. -/
instance F32.instZero : Zero F32 := ⟨⟨0⟩⟩

/-- The `float` one. -/
instance F32.instOne : One F32 := ⟨⟨1⟩⟩

/-- Conversion of a non-negative integer to `float`. -/
instance F32.instNatCast : NatCast F32 := ⟨fun n => ⟨f32_round n⟩⟩

/-- A decimal constant converted to `float`. -/
instance F32.instOfScientific : OfScientific F32 :=
  ⟨fun m s e => ⟨f32_round (OfScientific.ofScientific m s e)⟩⟩

/-- Rounded addition. -/
instance F32.instAdd : Add F32 := ⟨fun a b => ⟨f32_round (a.val + b.val)⟩⟩

/-- Rounded subtraction. -/
instance F32.instSub : Sub F32 := ⟨fun a b => ⟨f32_round (a.val - b.val)⟩⟩

/-- Rounded multiplication. -/
instance F32.instMul : Mul F32 := ⟨fun a b => ⟨f32_round (a.val * b.val)⟩⟩

/-- Rounded division. -/
instance F32.instDiv : Div F32 := ⟨fun a b => ⟨f32_round (a.val / b.val)⟩⟩

/-- Negation, which is exact. -/
instance F32.instNeg : Neg F32 := ⟨fun a => ⟨-a.val⟩⟩

/-- Comparison of values. -/
instance F32.instLT : LT F32 := ⟨fun a b => a.val < b.val⟩

/-- Comparison of values. -/
instance F32.instLE : LE F32 := ⟨fun a b => a.val ≤ b.val⟩

/-- The comparison `<` of `float` values is decidable. -/
instance F32.decLT : DecidableRel ((· < ·) : F32 → F32 → Prop) :=
  fun a b => inferInstanceAs (Decidable (a.val < b.val))

/-- The comparison `≤` of `float` values is decidable. -/
instance F32.decLE : DecidableRel ((· ≤ ·) : F32 → F32 → Prop) :=
  fun a b => inferInstanceAs (Decidable (a.val ≤ b.val))

/-- The integer part of a non-negative `float`. -/
instance F32.instTrunc : HasTrunc F32 := ⟨fun a => Nat.floor a.val⟩

/-- The function `sqrtf` of math.h on finite non-negative `float` values. -/
def f32_sqrt (x : F32) : F32 := ⟨f32_sqrt_q x.val⟩

/-- The function `powf` of math.h for a non-negative integral exponent: the rounded power.  A
power that is itself a `float`, such as a power of 0 or of 1, is returned exactly. -/
def f32_powf (x y : F32) : F32 := ⟨f32_round (x.val ^ Nat.floor y.val)⟩

section SpecDefs

variable {F : Type} [LinearOrderedField F]

/-! ## The shading formula in the words of the specification (section 4.4) -/

/-- The opposite vector `-v`. -/
def vecNeg (v : Vec3 F) : Vec3 F := ⟨-v.x, -v.y, -v.z⟩

/-- The direction from the hit point to a light, `normalize(light.position - hit)`. -/
def spec_light_dir (sqrtf : F → F) (hit : Vec3 F) (li : Light F) : Vec3 F :=
  normalize sqrtf (arrSub li.position hit)

/-- The diffuse total: the sum over the lights of
`intensity * max(0, dot(light_dir, N))`. -/
def spec_diffuse (sqrtf : F → F) (l : List (Light F)) (h : HitRecord F) : F :=
  (l.map (fun li => li.intensity * max 0 (dotProduct (spec_light_dir sqrtf h.hit li) h.N))).sum

/-- The specular total: the sum over the lights of
`intensity * max(0, -dot(reflect(-light_dir, N), dir)) ^ specular_exponent`. -/
def spec_specular (sqrtf : F → F) (powf : F → F → F) (dir : Vec3 F) (l : List (Light F))
    (h : HitRecord F) : F :=
  (l.map (fun li => li.intensity *
    powf (max 0 (-dotProduct (reflect (vecNeg (spec_light_dir sqrtf h.hit li)) h.N) dir))
      h.m.specular_exponent)).sum

/-- The factor `k = albedo[0] * diffuse_total + albedo[1] * specular_total`. -/
def spec_k (sqrtf : F → F) (powf : F → F → F) (dir : Vec3 F) (l : List (Light F))
    (h : HitRecord F) : F :=
  h.m.albedo0 * spec_diffuse sqrtf l h + h.m.albedo1 * spec_specular sqrtf powf dir l h

end SpecDefs

/-! ## Theorems: `ray_intersect` -/

section Geometry

/-- The body of `ray_intersect` with the pointer test of line 53 evaluated. -/
lemma ray_intersect_eq {F : Type} [LinearOrderedField F] (sqrtf : F → F) (t0 : Nat)
    (origin dir : Vec3 F) (s : Sphere F) :
    ray_intersect sqrtf t0 origin dir s =
      if dotProduct (arrSub s.center origin) (arrSub s.center origin)
          - dotProduct (arrSub s.center origin) dir * dotProduct (arrSub s.center origin) dir
          > s.radius * s.radius then none
      else if dotProduct (arrSub s.center origin) dir
          - sqrtf (s.radius * s.radius
            - (dotProduct (arrSub s.center origin) (arrSub s.center origin)
              - dotProduct (arrSub s.center origin) dir
                * dotProduct (arrSub s.center origin) dir)) < 0 then none
      else some (dotProduct (arrSub s.center origin) dir
          - sqrtf (s.radius * s.radius
            - (dotProduct (arrSub s.center origin) (arrSub s.center origin)
              - dotProduct (arrSub s.center origin) dir
                * dotProduct (arrSub s.center origin) dir))) := by
  simp [ray_intersect, ptr_lt_zero]

/-- Squared distance from the sphere centre to the point of parameter `t` on the ray. -/
lemma dist_sq_at (o d c : Vec3 ℝ) (t : ℝ) :
    dotProduct (arrSub (arrAdd o (arrScalarMult d t)) c)
        (arrSub (arrAdd o (arrScalarMult d t)) c)
      = dotProduct (arrSub c o) (arrSub c o) - 2 * t * dotProduct (arrSub c o) d
        + t * t * dotProduct d d := by
  simp only [dotProduct, arrSub, arrAdd, arrScalarMult]
  ring

lemma dotProduct_self_nonneg (v : Vec3 ℝ) : 0 ≤ dotProduct v v := by
  simp only [dotProduct]
  nlinarith [mul_self_nonneg v.x, mul_self_nonneg v.y, mul_self_nonneg v.z]

lemma vecNorm_eq_iff (v : Vec3 ℝ) {r : ℝ} (hr : 0 ≤ r) :
    vecNorm Real.sqrt v = r ↔ dotProduct v v = r * r := by
  unfold vecNorm
  rw [Real.sqrt_eq_iff_mul_self_eq (dotProduct_self_nonneg v) hr]

lemma lt_vecNorm_iff (v : Vec3 ℝ) {r : ℝ} (hr : 0 ≤ r) :
    r < vecNorm Real.sqrt v ↔ r * r < dotProduct v v := by
  unfold vecNorm
  rw [Real.lt_sqrt hr, sq]

/-- When `ray_intersect` succeeds the reported distance is `tca - thc`. -/
lemma ray_intersect_some (t0 : Nat) (o d : Vec3 ℝ) (s : Sphere ℝ) (t : ℝ)
    (h : ray_intersect Real.sqrt t0 o d s = some t) :
    dotProduct (arrSub s.center o) (arrSub s.center o)
        - dotProduct (arrSub s.center o) d * dotProduct (arrSub s.center o) d
        ≤ s.radius * s.radius ∧
    0 ≤ t ∧
    t = dotProduct (arrSub s.center o) d
        - Real.sqrt (s.radius * s.radius
          - (dotProduct (arrSub s.center o) (arrSub s.center o)
            - dotProduct (arrSub s.center o) d * dotProduct (arrSub s.center o) d)) := by
  rw [ray_intersect_eq] at h
  split_ifs at h with h1 h2
  simp only [Option.some.injEq] at h
  subst h
  exact ⟨not_lt.mp h1, not_lt.mp h2, rfl⟩

end Geometry

section Claims1

/-- C1 (the code departs from the claim): with the origin at the centre of the unit sphere,
strictly inside it, `t0 = -1` and `t1 = 1`, yet `ray_intersect` returns failure, because the
test of line 53 is made on the pointer and the negative `t0` is never replaced by `t1`. -/
theorem C1_inside_origin_fails (t0 : Nat) (m : Material ℝ) :
    ray_intersect Real.sqrt t0 ⟨0, 0, 0⟩ ⟨0, 0, -1⟩ ⟨⟨0, 0, 0⟩, 1, m⟩ = none := by
  rw [ray_intersect_eq]
  simp [dotProduct, arrSub]

/-- C2 (amended): over exact real arithmetic, for a sphere of positive radius and a ray of
unit direction whose origin is farther
than the radius from the centre and none of whose points `origin + t*dir`, `t ≥ 0`, is within
the radius of the centre, `ray_intersect` returns failure. -/
theorem C2_ray_missing_sphere_fails (t0 : Nat) (origin dir : Vec3 ℝ) (s : Sphere ℝ)
    (hr : 0 < s.radius) (hdir : vecNorm Real.sqrt dir = 1)
    (_hfar : s.radius < vecNorm Real.sqrt (arrSub origin s.center))
    (hmiss : ∀ t : ℝ, 0 ≤ t →
      s.radius < vecNorm Real.sqrt (arrSub (arrAdd origin (arrScalarMult dir t)) s.center)) :
    ray_intersect Real.sqrt t0 origin dir s = none := by
  have hd : dotProduct dir dir = 1 := by
    have := (vecNorm_eq_iff dir zero_le_one).mp hdir
    simpa using this
  rw [ray_intersect_eq]
  split_ifs with h1 h2
  · rfl
  · rfl
  · exfalso
    have h1 := not_lt.mp h1
    have h2 := not_lt.mp h2
    set tca := dotProduct (arrSub s.center origin) dir with htca
    set LL := dotProduct (arrSub s.center origin) (arrSub s.center origin) with hLL
    have hnn : 0 ≤ s.radius * s.radius - (LL - tca * tca) := by linarith
    have hsq := Real.mul_self_sqrt hnn
    set thc := Real.sqrt (s.radius * s.radius - (LL - tca * tca)) with hthc
    have hm := hmiss (tca - thc) h2
    rw [lt_vecNorm_iff _ hr.le, dist_sq_at, hd, ← htca, ← hLL] at hm
    nlinarith

end Claims1

section Claims2

/-- With the origin strictly inside the sphere `ray_intersect` always fails: the general form
of the defect shown by `C1_inside_origin_fails`. -/
lemma ray_intersect_inside_fails (t0 : Nat) (origin dir : Vec3 ℝ) (s : Sphere ℝ)
    (hin : vecNorm Real.sqrt (arrSub s.center origin) < s.radius) :
    ray_intersect Real.sqrt t0 origin dir s = none := by
  have hr : 0 < s.radius := lt_of_le_of_lt (Real.sqrt_nonneg _) hin
  have hLL : dotProduct (arrSub s.center origin) (arrSub s.center origin)
      < s.radius * s.radius := by
    unfold vecNorm at hin
    rw [Real.sqrt_lt (dotProduct_self_nonneg _) hr.le, sq] at hin
    exact hin
  rw [ray_intersect_eq]
  split_ifs with h1 h2
  · rfl
  · rfl
  · exfalso
    have h2 := not_lt.mp h2
    set tca := dotProduct (arrSub s.center origin) dir with htca
    set LL := dotProduct (arrSub s.center origin) (arrSub s.center origin)
    have hnn : 0 ≤ s.radius * s.radius - (LL - tca * tca) := by nlinarith [mul_self_nonneg tca]
    have hsq := Real.mul_self_sqrt hnn
    have hs0 := Real.sqrt_nonneg (s.radius * s.radius - (LL - tca * tca))
    set thc := Real.sqrt (s.radius * s.radius - (LL - tca * tca))
    nlinarith

/-- C3: for a sphere of radius `r > 0` and an origin at distance `D > r` from its centre,
`ray_intersect` called with the unit direction `(center - origin)/D` returns success with
distance exactly `D - r`. -/
theorem C3_aimed_at_center (t0 : Nat) (origin : Vec3 ℝ) (s : Sphere ℝ)
    (hr : 0 < s.radius)
    (hD : s.radius < vecNorm Real.sqrt (arrSub s.center origin)) :
    ray_intersect Real.sqrt t0 origin (normalize Real.sqrt (arrSub s.center origin)) s
      = some (vecNorm Real.sqrt (arrSub s.center origin) - s.radius) := by
  set L := arrSub s.center origin with hL
  set D := vecNorm Real.sqrt L with hDdef
  have hDpos : 0 < D := lt_trans hr hD
  have hLL : dotProduct L L = D * D := (vecNorm_eq_iff L hDpos.le).mp rfl
  have htca : dotProduct L (normalize Real.sqrt L) = D := by
    have h1 : dotProduct L (normalize Real.sqrt L) = dotProduct L L / D := by
      simp only [dotProduct, normalize, ← hDdef]
      field_simp
    rw [h1, hLL]
    field_simp
  rw [ray_intersect_eq, ← hL, htca, hLL]
  have hz : s.radius * s.radius - (D * D - D * D) = s.radius * s.radius := by ring
  rw [hz, Real.sqrt_mul_self hr.le]
  have h1 : ¬ (D * D - D * D > s.radius * s.radius) := by
    have : D * D - D * D = 0 := by ring
    rw [this]
    exact not_lt.mpr (mul_self_nonneg _)
  have h2 : ¬ (D - s.radius < 0) := by linarith
  rw [if_neg h1, if_neg h2]

/-- C4 (amended): over exact real arithmetic, whenever `ray_intersect` returns success for a
ray of unit direction and a sphere of
positive radius, the reported distance `t` is non-negative, the point `origin + t*dir` is on
the sphere surface, and `t` is the least non-negative parameter whose point is on the
surface. -/
theorem C4_success_is_nearest_surface_point (t0 : Nat) (origin dir : Vec3 ℝ) (s : Sphere ℝ)
    (t : ℝ) (hr : 0 < s.radius) (hdir : vecNorm Real.sqrt dir = 1)
    (h : ray_intersect Real.sqrt t0 origin dir s = some t) :
    0 ≤ t ∧
    vecNorm Real.sqrt (arrSub (arrAdd origin (arrScalarMult dir t)) s.center) = s.radius ∧
    ∀ u : ℝ, 0 ≤ u →
      vecNorm Real.sqrt (arrSub (arrAdd origin (arrScalarMult dir u)) s.center) = s.radius →
      t ≤ u := by
  have hd : dotProduct dir dir = 1 := by
    have := (vecNorm_eq_iff dir zero_le_one).mp hdir
    simpa using this
  obtain ⟨h1, h2, h3⟩ := ray_intersect_some t0 origin dir s t h
  set tca := dotProduct (arrSub s.center origin) dir with htca
  set LL := dotProduct (arrSub s.center origin) (arrSub s.center origin) with hLL
  have hnn : 0 ≤ s.radius * s.radius - (LL - tca * tca) := by linarith
  have hsq := Real.mul_self_sqrt hnn
  have hs0 := Real.sqrt_nonneg (s.radius * s.radius - (LL - tca * tca))
  set thc := Real.sqrt (s.radius * s.radius - (LL - tca * tca)) with hthc
  refine ⟨h2, ?_, ?_⟩
  · rw [vecNorm_eq_iff _ hr.le, dist_sq_at, hd, ← htca, ← hLL, h3]
    linear_combination hsq
  · intro u _ hu
    rw [vecNorm_eq_iff _ hr.le, dist_sq_at, hd, ← htca, ← hLL] at hu
    rw [h3]
    by_contra hlt
    have hlt := not_le.mp hlt
    nlinarith

end Claims2

section Witnesses1

lemma vecNorm_down : vecNorm Real.sqrt (⟨0, 0, -1⟩ : Vec3 ℝ) = 1 := by
  rw [vecNorm_eq_iff _ zero_le_one]
  norm_num [dotProduct]

/-- The ray from the origin down the negative z axis meets the sphere of radius 2 centred at
`(0,0,-5)` at distance 3. -/
lemma ray_intersect_example (t0 : Nat) (m : Material ℝ) :
    ray_intersect Real.sqrt t0 ⟨0, 0, 0⟩ ⟨0, 0, -1⟩ ⟨⟨0, 0, -5⟩, 2, m⟩ = some 3 := by
  rw [ray_intersect_eq]
  have h : Real.sqrt 4 = 2 := by
    rw [show (4 : ℝ) = 2 * 2 by norm_num]
    exact Real.sqrt_mul_self (by norm_num)
  norm_num [dotProduct, arrSub, h]

/-- Witness for C2: a unit sphere centred at `(0,0,5)`, behind a ray that starts at the origin
and points down the negative z axis. -/
theorem C2_ray_missing_sphere_fails_witness :
    ((0 : ℝ) < 1 ∧ vecNorm Real.sqrt (⟨0, 0, -1⟩ : Vec3 ℝ) = 1 ∧
      (1 : ℝ) < vecNorm Real.sqrt (arrSub (⟨0, 0, 0⟩ : Vec3 ℝ) ⟨0, 0, 5⟩) ∧
      (∀ t : ℝ, 0 ≤ t → (1 : ℝ) < vecNorm Real.sqrt
        (arrSub (arrAdd (⟨0, 0, 0⟩ : Vec3 ℝ) (arrScalarMult ⟨0, 0, -1⟩ t)) ⟨0, 0, 5⟩))) ∧
    ray_intersect Real.sqrt 0 (⟨0, 0, 0⟩ : Vec3 ℝ) ⟨0, 0, -1⟩
      ⟨⟨0, 0, 5⟩, 1, ⟨⟨255, 0, 0⟩, 1, 0, 50⟩⟩ = none := by
  have h1 : (1 : ℝ) < vecNorm Real.sqrt (arrSub (⟨0, 0, 0⟩ : Vec3 ℝ) ⟨0, 0, 5⟩) := by
    rw [lt_vecNorm_iff _ zero_le_one]
    norm_num [dotProduct, arrSub]
  have h2 : ∀ t : ℝ, 0 ≤ t → (1 : ℝ) < vecNorm Real.sqrt
      (arrSub (arrAdd (⟨0, 0, 0⟩ : Vec3 ℝ) (arrScalarMult ⟨0, 0, -1⟩ t)) ⟨0, 0, 5⟩) := by
    intro t ht
    rw [lt_vecNorm_iff _ zero_le_one]
    simp only [dotProduct, arrSub, arrAdd, arrScalarMult]
    nlinarith
  exact ⟨⟨one_pos, vecNorm_down, h1, h2⟩,
    C2_ray_missing_sphere_fails 0 ⟨0, 0, 0⟩ ⟨0, 0, -1⟩ ⟨⟨0, 0, 5⟩, 1, ⟨⟨255, 0, 0⟩, 1, 0, 50⟩⟩
      one_pos vecNorm_down h1 h2⟩

/-- Witness for C3: the sphere of radius 2 centred at `(0,0,-5)` seen from the origin. -/
theorem C3_aimed_at_center_witness :
    ((0 : ℝ) < 2 ∧ (2 : ℝ) < vecNorm Real.sqrt (arrSub (⟨0, 0, -5⟩ : Vec3 ℝ) ⟨0, 0, 0⟩)) ∧
    ray_intersect Real.sqrt 0 (⟨0, 0, 0⟩ : Vec3 ℝ)
        (normalize Real.sqrt (arrSub (⟨0, 0, -5⟩ : Vec3 ℝ) ⟨0, 0, 0⟩))
        ⟨⟨0, 0, -5⟩, 2, ⟨⟨255, 0, 0⟩, 1, 0, 50⟩⟩
      = some (vecNorm Real.sqrt (arrSub (⟨0, 0, -5⟩ : Vec3 ℝ) ⟨0, 0, 0⟩) - 2) := by
  have h1 : (2 : ℝ) < vecNorm Real.sqrt (arrSub (⟨0, 0, -5⟩ : Vec3 ℝ) ⟨0, 0, 0⟩) := by
    rw [lt_vecNorm_iff _ zero_le_two]
    norm_num [dotProduct, arrSub]
  exact ⟨⟨two_pos, h1⟩,
    C3_aimed_at_center 0 ⟨0, 0, 0⟩ ⟨⟨0, 0, -5⟩, 2, ⟨⟨255, 0, 0⟩, 1, 0, 50⟩⟩ two_pos h1⟩

/-- Witness for C4: the same sphere, hit at distance 3. -/
theorem C4_success_is_nearest_surface_point_witness :
    ((0 : ℝ) < 2 ∧ vecNorm Real.sqrt (⟨0, 0, -1⟩ : Vec3 ℝ) = 1 ∧
      ray_intersect Real.sqrt 0 (⟨0, 0, 0⟩ : Vec3 ℝ) ⟨0, 0, -1⟩
        ⟨⟨0, 0, -5⟩, 2, ⟨⟨255, 0, 0⟩, 1, 0, 50⟩⟩ = some 3) ∧
    ((0 : ℝ) ≤ 3 ∧
      vecNorm Real.sqrt (arrSub (arrAdd (⟨0, 0, 0⟩ : Vec3 ℝ) (arrScalarMult ⟨0, 0, -1⟩ 3))
        ⟨0, 0, -5⟩) = 2 ∧
      ∀ u : ℝ, 0 ≤ u →
        vecNorm Real.sqrt (arrSub (arrAdd (⟨0, 0, 0⟩ : Vec3 ℝ) (arrScalarMult ⟨0, 0, -1⟩ u))
          ⟨0, 0, -5⟩) = 2 →
        3 ≤ u) :=
  ⟨⟨two_pos, vecNorm_down, ray_intersect_example 0 _⟩,
    C4_success_is_nearest_surface_point 0 ⟨0, 0, 0⟩ ⟨0, 0, -1⟩
      ⟨⟨0, 0, -5⟩, 2, ⟨⟨255, 0, 0⟩, 1, 0, 50⟩⟩ 3 two_pos vecNorm_down
      (ray_intersect_example 0 _)⟩

end Witnesses1

/-! ## Theorems: `scene_intersect` -/

section Scan

/-- One loop iteration: either the state is kept (the sphere is missed or is not strictly
nearer) or it is replaced by the record of this sphere. -/
lemma scene_step_eq {F : Type} [LinearOrderedField F] (sqrtf : F → F) (t0 : Nat)
    (origin dir : Vec3 F) (st : ScanState F) (si : Sphere F) :
    (scene_step sqrtf t0 origin dir st si = st ∧
      ∀ d, ray_intersect sqrtf t0 origin dir si = some d → st.sphere_dist ≤ d) ∨
    (∃ d, ray_intersect sqrtf t0 origin dir si = some d ∧ d < st.sphere_dist ∧
      scene_step sqrtf t0 origin dir st si = ⟨d, some (record_at sqrtf origin dir si d)⟩) := by
  unfold scene_step
  cases hray : ray_intersect sqrtf t0 origin dir si with
  | none => left; simp
  | some d =>
    by_cases hlt : d < st.sphere_dist
    · right
      exact ⟨d, rfl, hlt, by simp [hlt, record_at]⟩
    · left
      refine ⟨by simp [hlt], ?_⟩
      intro d' hd'
      cases hd'
      exact not_lt.mp hlt

/-- The loop invariant of `scene_intersect`, from an arbitrary start state: either nothing was
written and no sphere is strictly nearer than the start distance, or the final state is the
record of the first sphere of least distance. -/
lemma scan_spec {F : Type} [LinearOrderedField F] (sqrtf : F → F) (t0 : Nat)
    (origin dir : Vec3 F) (s : List (Sphere F)) (st : ScanState F) :
    (s.foldl (scene_step sqrtf t0 origin dir) st = st ∧
      ∀ sp ∈ s, ∀ d, ray_intersect sqrtf t0 origin dir sp = some d → st.sphere_dist ≤ d) ∨
    (∃ pre si post d, s = pre ++ si :: post ∧
      ray_intersect sqrtf t0 origin dir si = some d ∧ d < st.sphere_dist ∧
      (∀ sp ∈ pre, ∀ e, ray_intersect sqrtf t0 origin dir sp = some e → d < e) ∧
      (∀ sp ∈ post, ∀ e, ray_intersect sqrtf t0 origin dir sp = some e → d ≤ e) ∧
      s.foldl (scene_step sqrtf t0 origin dir) st
        = ⟨d, some (record_at sqrtf origin dir si d)⟩) := by
  induction s generalizing st with
  | nil => left; simp
  | cons a t ih =>
    rw [List.foldl_cons]
    rcases scene_step_eq sqrtf t0 origin dir st a with ⟨hkeep, ha⟩ | ⟨da, hda, hlt, hnew⟩
    · rw [hkeep]
      rcases ih st with ⟨hfin, hall⟩ | ⟨pre, si, post, d, hs, hray, hd, hpre, hpost, hfin⟩
      · left
        refine ⟨hfin, ?_⟩
        intro sp hsp e he
        rcases List.mem_cons.mp hsp with rfl | hmem
        · exact ha e he
        · exact hall sp hmem e he
      · right
        refine ⟨a :: pre, si, post, d, by simp [hs], hray, hd, ?_, hpost, hfin⟩
        intro sp hsp e he
        rcases List.mem_cons.mp hsp with rfl | hmem
        · exact lt_of_lt_of_le hd (ha e he)
        · exact hpre sp hmem e he
    · rw [hnew]
      rcases ih ⟨da, some (record_at sqrtf origin dir a da)⟩ with
        ⟨hfin, hall⟩ | ⟨pre, si, post, d, hs, hray, hd, hpre, hpost, hfin⟩
      · right
        exact ⟨[], a, t, da, rfl, hda, hlt, by simp, hall, hfin⟩
      · right
        refine ⟨a :: pre, si, post, d, by simp [hs], hray, lt_trans hd hlt, ?_, hpost, hfin⟩
        intro sp hsp e he
        rcases List.mem_cons.mp hsp with rfl | hmem
        · rw [hda] at he
          cases he
          exact hd
        · exact hpre sp hmem e he

lemma INT_MAX_cast_ge : (1000 : ℝ) ≤ ((INT_MAX : ℕ) : ℝ) := by
  norm_num [INT_MAX]

end Scan

section SceneClaims

/-- The two outcomes of `scene_intersect` over the reals: nothing is written and the flag is
false, or the outputs are the record of the first sphere of least distance `dm` and the flag
tells whether `dm < 1000`. -/
lemma scene_intersect_cases (t0 : Nat) (origin dir : Vec3 ℝ) (s : List (Sphere ℝ)) :
    (scene_intersect Real.sqrt t0 origin dir s = (false, none) ∧
      ∀ sp ∈ s, ∀ e, ray_intersect Real.sqrt t0 origin dir sp = some e →
        ((INT_MAX : ℕ) : ℝ) ≤ e) ∨
    (∃ pre si post dm, s = pre ++ si :: post ∧
      ray_intersect Real.sqrt t0 origin dir si = some dm ∧ dm < ((INT_MAX : ℕ) : ℝ) ∧
      (∀ sp ∈ pre, ∀ e, ray_intersect Real.sqrt t0 origin dir sp = some e → dm < e) ∧
      (∀ sp ∈ post, ∀ e, ray_intersect Real.sqrt t0 origin dir sp = some e → dm ≤ e) ∧
      scene_intersect Real.sqrt t0 origin dir s
        = (decide (dm < 1000), some (record_at Real.sqrt origin dir si dm))) := by
  rcases scan_spec Real.sqrt t0 origin dir s ⟨((INT_MAX : ℕ) : ℝ), none⟩ with
    ⟨hfin, hall⟩ | ⟨pre, si, post, d, hs, hray, hd, hpre, hpost, hfin⟩
  · left
    refine ⟨?_, hall⟩
    simp only [scene_intersect, scene_scan, hfin]
    have := INT_MAX_cast_ge
    simp only [Prod.mk.injEq, decide_eq_false_iff_not, not_lt, and_true]
    exact this
  · right
    refine ⟨pre, si, post, d, hs, hray, hd, hpre, hpost, ?_⟩
    simp only [scene_intersect, scene_scan, hfin]

/-- In the second outcome the distance `dm` is least among all successful intersections. -/
lemma least_of_split (t0 : Nat) (origin dir : Vec3 ℝ) (pre post : List (Sphere ℝ))
    (si : Sphere ℝ) (dm : ℝ)
    (hray : ray_intersect Real.sqrt t0 origin dir si = some dm)
    (hpre : ∀ sp ∈ pre, ∀ e, ray_intersect Real.sqrt t0 origin dir sp = some e → dm < e)
    (hpost : ∀ sp ∈ post, ∀ e, ray_intersect Real.sqrt t0 origin dir sp = some e → dm ≤ e) :
    ∀ sp ∈ pre ++ si :: post, ∀ e,
      ray_intersect Real.sqrt t0 origin dir sp = some e → dm ≤ e := by
  intro sp hsp e he
  rcases List.mem_append.mp hsp with h | h
  · exact (hpre sp h e he).le
  · rcases List.mem_cons.mp h with rfl | h
    · rw [hray] at he
      cases he
      exact le_refl _
    · exact hpost sp h e he

/-- The flag of `scene_intersect` is true exactly when some sphere is met below 1000. -/
lemma scene_flag_iff (t0 : Nat) (origin dir : Vec3 ℝ) (s : List (Sphere ℝ)) :
    (scene_intersect Real.sqrt t0 origin dir s).1 = true ↔
      ∃ sp ∈ s, ∃ e, ray_intersect Real.sqrt t0 origin dir sp = some e ∧ e < 1000 := by
  rcases scene_intersect_cases t0 origin dir s with
    ⟨hfin, hall⟩ | ⟨pre, si, post, dm, hs, hray, hd, hpre, hpost, hfin⟩
  · rw [hfin]
    constructor
    · intro h
      cases h
    · rintro ⟨sp, hsp, e, he, hlt⟩
      have := hall sp hsp e he
      have := INT_MAX_cast_ge
      linarith
  · rw [hfin]
    simp only [decide_eq_true_eq]
    constructor
    · intro h
      exact ⟨si, by simp [hs], dm, hray, h⟩
    · rintro ⟨sp, hsp, e, he, hlt⟩
      rw [hs] at hsp
      exact lt_of_le_of_lt (least_of_split t0 origin dir pre post si dm hray hpre hpost
        sp hsp e he) hlt

/-- C5: when `scene_intersect` reports a hit, the outputs are written, the hit point is
`origin + dir*d` for the least distance `d` among the spheres on which `ray_intersect`
succeeds, and the material is that of a sphere attaining this least distance. -/
theorem C5_hit_is_nearest (t0 : Nat) (origin dir : Vec3 ℝ) (s : List (Sphere ℝ))
    (hflag : (scene_intersect Real.sqrt t0 origin dir s).1 = true) :
    ∃ h d, (scene_intersect Real.sqrt t0 origin dir s).2 = some h ∧
      (∀ sp ∈ s, ∀ e, ray_intersect Real.sqrt t0 origin dir sp = some e → d ≤ e) ∧
      (∃ sp ∈ s, ray_intersect Real.sqrt t0 origin dir sp = some d ∧ h.m = sp.material) ∧
      h.hit = arrAdd origin (arrScalarMult dir d) := by
  rcases scene_intersect_cases t0 origin dir s with
    ⟨hfin, _⟩ | ⟨pre, si, post, dm, hs, hray, hd, hpre, hpost, hfin⟩
  · rw [hfin] at hflag
    cases hflag
  · refine ⟨record_at Real.sqrt origin dir si dm, dm, by rw [hfin], ?_, ?_, rfl⟩
    · rw [hs]
      exact least_of_split t0 origin dir pre post si dm hray hpre hpost
    · exact ⟨si, by simp [hs], hray, rfl⟩

/-- C7: `scene_intersect` reports a hit if and only if some sphere of the list is met by the
ray at a distance strictly below 1000; a list all of whose met spheres are at distance 1000
or more is a miss, and so is the empty list. -/
theorem C7_hit_iff_below_cutoff (t0 : Nat) (origin dir : Vec3 ℝ) (s : List (Sphere ℝ)) :
    ((scene_intersect Real.sqrt t0 origin dir s).1 = true ↔
      ∃ sp ∈ s, ∃ e, ray_intersect Real.sqrt t0 origin dir sp = some e ∧ e < 1000) ∧
    ((∀ sp ∈ s, ∀ e, ray_intersect Real.sqrt t0 origin dir sp = some e → 1000 ≤ e) →
      (scene_intersect Real.sqrt t0 origin dir s).1 = false) ∧
    (scene_intersect Real.sqrt t0 origin dir []).1 = false := by
  refine ⟨scene_flag_iff t0 origin dir s, ?_, ?_⟩
  · intro hall
    rw [← Bool.not_eq_true, scene_flag_iff]
    rintro ⟨sp, hsp, e, he, hlt⟩
    exact absurd hlt (not_lt.mpr (hall sp hsp e he))
  · rw [← Bool.not_eq_true, scene_flag_iff]
    rintro ⟨sp, hsp, _⟩
    cases hsp

end SceneClaims

section SceneClaims2

/-- On success the point at the reported distance is on the sphere (squared form). -/
lemma ray_hit_on_surface (t0 : Nat) (origin dir : Vec3 ℝ) (s : Sphere ℝ) (t : ℝ)
    (hd : dotProduct dir dir = 1)
    (h : ray_intersect Real.sqrt t0 origin dir s = some t) :
    dotProduct (arrSub (arrAdd origin (arrScalarMult dir t)) s.center)
        (arrSub (arrAdd origin (arrScalarMult dir t)) s.center)
      = s.radius * s.radius := by
  obtain ⟨h1, _, h3⟩ := ray_intersect_some t0 origin dir s t h
  set tca := dotProduct (arrSub s.center origin) dir with htca
  set LL := dotProduct (arrSub s.center origin) (arrSub s.center origin) with hLL
  have hnn : 0 ≤ s.radius * s.radius - (LL - tca * tca) := by linarith
  have hsq := Real.mul_self_sqrt hnn
  rw [dist_sq_at, hd, ← htca, ← hLL, h3]
  linear_combination hsq

/-- If sphere number `i` of the list is met at distance `dm`, no sphere is met at a smaller
distance, no sphere of smaller index is met at distance `dm`, and `dm` is below the initial
value `INT_MAX` of `sphere_dist`, then `scene_intersect` leaves in its outputs the hit point,
normal and material computed from sphere `i`; the flag tells whether `dm < 1000`. -/
lemma first_of_least_below_sentinel (t0 : Nat) (origin dir : Vec3 ℝ) (s : List (Sphere ℝ))
    (i : Nat) (si : Sphere ℝ) (dm : ℝ) (hi : s[i]? = some si)
    (hray : ray_intersect Real.sqrt t0 origin dir si = some dm)
    (hmin : ∀ sp ∈ s, ∀ e, ray_intersect Real.sqrt t0 origin dir sp = some e → dm ≤ e)
    (hfirst : ∀ j sj, j < i → s[j]? = some sj →
      ray_intersect Real.sqrt t0 origin dir sj ≠ some dm)
    (hsent : dm < ((INT_MAX : ℕ) : ℝ)) :
    scene_intersect Real.sqrt t0 origin dir s
      = (decide (dm < 1000), some (record_at Real.sqrt origin dir si dm)) := by
  have hmem : si ∈ s := List.getElem?_mem hi
  rcases scene_intersect_cases t0 origin dir s with
    ⟨_, hall⟩ | ⟨pre, sk, post, d, hs, hrayk, _, hpre, hpost, hfin⟩
  · exact absurd hsent (not_lt.mpr (hall si hmem dm hray))
  · have hle : d ≤ dm := by
      have := least_of_split t0 origin dir pre post sk d hrayk hpre hpost
      rw [← hs] at this
      exact this si hmem dm hray
    have hge : dm ≤ d := hmin sk (by simp [hs]) d hrayk
    have hdd : d = dm := le_antisymm hle hge
    subst hdd
    have hk : s[pre.length]? = some sk := by
      rw [hs, List.getElem?_append_right (le_refl _)]
      simp
    have hik : i = pre.length := by
      rcases Nat.lt_trichotomy i pre.length with hlt | heq | hgt
      · exfalso
        rw [hs, List.getElem?_append_left hlt] at hi
        exact lt_irrefl _ (hpre si (List.getElem?_mem hi) d hray)
      · exact heq
      · exact absurd hrayk (hfirst pre.length sk hgt hk)
    subst hik
    rw [hk] at hi
    cases hi
    exact hfin

/-- C6: when `scene_intersect` reports a hit and sphere number `i` of the list is the first
in scan order among the spheres met at the least distance `dm` (two or more of them in case
of a tie), the returned hit point, normal and material are those computed from sphere `i`. -/
theorem C6_tie_keeps_first (t0 : Nat) (origin dir : Vec3 ℝ) (s : List (Sphere ℝ))
    (i : Nat) (si : Sphere ℝ) (dm : ℝ) (hi : s[i]? = some si)
    (hray : ray_intersect Real.sqrt t0 origin dir si = some dm)
    (hmin : ∀ sp ∈ s, ∀ e, ray_intersect Real.sqrt t0 origin dir sp = some e → dm ≤ e)
    (hfirst : ∀ j sj, j < i → s[j]? = some sj →
      ray_intersect Real.sqrt t0 origin dir sj ≠ some dm)
    (hflag : (scene_intersect Real.sqrt t0 origin dir s).1 = true) :
    scene_intersect Real.sqrt t0 origin dir s
      = (true, some (record_at Real.sqrt origin dir si dm)) := by
  obtain ⟨sp, hsp, e, he, hlt⟩ := (scene_flag_iff t0 origin dir s).mp hflag
  have hdm : dm < 1000 := lt_of_le_of_lt (hmin sp hsp e he) hlt
  have hsent : dm < ((INT_MAX : ℕ) : ℝ) := lt_of_lt_of_le hdm INT_MAX_cast_ge
  rw [first_of_least_below_sentinel t0 origin dir s i si dm hi hray hmin hfirst hsent]
  simp [hdm]

/-- C8 (amended): over exact real arithmetic, for a ray of unit direction and spheres of
positive radius, when `scene_intersect`
reports a hit there is a nearest sphere `S` whose material is returned, the returned normal
has unit length, the hit point is `S.center + S.radius * N`, it is at distance `S.radius`
from the centre, and `hit - S.center` is not the zero vector. -/
theorem C8_normal_is_unit_outward (t0 : Nat) (origin dir : Vec3 ℝ) (s : List (Sphere ℝ))
    (hdir : vecNorm Real.sqrt dir = 1) (hrad : ∀ sp ∈ s, 0 < sp.radius)
    (hflag : (scene_intersect Real.sqrt t0 origin dir s).1 = true) :
    ∃ S ∈ s, ∃ d h, ray_intersect Real.sqrt t0 origin dir S = some d ∧
      (∀ sp ∈ s, ∀ e, ray_intersect Real.sqrt t0 origin dir sp = some e → d ≤ e) ∧
      (scene_intersect Real.sqrt t0 origin dir s).2 = some h ∧
      h.m = S.material ∧
      vecNorm Real.sqrt h.N = 1 ∧
      h.hit = arrAdd S.center (arrScalarMult h.N S.radius) ∧
      vecNorm Real.sqrt (arrSub h.hit S.center) = S.radius ∧
      arrSub h.hit S.center ≠ ⟨0, 0, 0⟩ := by
  have hd : dotProduct dir dir = 1 := by
    have := (vecNorm_eq_iff dir zero_le_one).mp hdir
    simpa using this
  rcases scene_intersect_cases t0 origin dir s with
    ⟨hfin, _⟩ | ⟨pre, S, post, d, hs, hray, _, hpre, hpost, hfin⟩
  · rw [hfin] at hflag
    cases hflag
  · have hS : S ∈ s := by simp [hs]
    have hr : 0 < S.radius := hrad S hS
    have hsurf := ray_hit_on_surface t0 origin dir S d hd hray
    have hnorm : vecNorm Real.sqrt (arrSub (arrAdd origin (arrScalarMult dir d)) S.center)
        = S.radius := (vecNorm_eq_iff _ hr.le).mpr hsurf
    refine ⟨S, hS, d, record_at Real.sqrt origin dir S d, hray, ?_, by rw [hfin], rfl,
      ?_, ?_, hnorm, ?_⟩
    · rw [hs]
      exact least_of_split t0 origin dir pre post S d hray hpre hpost
    · rw [vecNorm_eq_iff _ zero_le_one]
      simp only [record_at, normalize, hnorm]
      simp only [dotProduct] at hsurf ⊢
      field_simp
      linarith
    · simp only [record_at, normalize, hnorm]
      simp only [arrAdd, arrScalarMult, arrSub]
      ext <;> field_simp
    · intro hzero
      simp only [record_at] at hzero
      rw [hzero] at hsurf
      simp only [dotProduct] at hsurf
      nlinarith

end SceneClaims2

section Witnesses2

/-- Two spheres of the same geometry (radius 2, centre `(0,0,-5)`) and different materials,
scanned from the origin down the negative z axis: the outputs are those of the first one. -/
lemma scene_intersect_tie_example (t0 : Nat) :
    scene_intersect Real.sqrt t0 (⟨0, 0, 0⟩ : Vec3 ℝ) ⟨0, 0, -1⟩
        [⟨⟨0, 0, -5⟩, 2, ⟨⟨255, 0, 0⟩, 1, 0, 50⟩⟩, ⟨⟨0, 0, -5⟩, 2, ⟨⟨0, 255, 0⟩, 1, 0, 50⟩⟩]
      = (true, some (record_at Real.sqrt ⟨0, 0, 0⟩ ⟨0, 0, -1⟩
          ⟨⟨0, 0, -5⟩, 2, ⟨⟨255, 0, 0⟩, 1, 0, 50⟩⟩ 3)) := by
  simp only [scene_intersect, scene_scan, List.foldl_cons, List.foldl_nil, scene_step,
    ray_intersect_example, record_at]
  norm_num [INT_MAX]

/-- A unit sphere centred at `(0,0,-2000)` is met at distance 1999. -/
lemma ray_intersect_cutoff_example (t0 : Nat) (m : Material ℝ) :
    ray_intersect Real.sqrt t0 ⟨0, 0, 0⟩ ⟨0, 0, -1⟩ ⟨⟨0, 0, -2000⟩, 1, m⟩ = some 1999 := by
  rw [ray_intersect_eq]
  norm_num [dotProduct, arrSub]

/-- Witness for C5: the two-sphere scene above reports a hit. -/
theorem C5_hit_is_nearest_witness :
    (scene_intersect Real.sqrt 0 (⟨0, 0, 0⟩ : Vec3 ℝ) ⟨0, 0, -1⟩
        [⟨⟨0, 0, -5⟩, 2, ⟨⟨255, 0, 0⟩, 1, 0, 50⟩⟩,
          ⟨⟨0, 0, -5⟩, 2, ⟨⟨0, 255, 0⟩, 1, 0, 50⟩⟩]).1 = true ∧
    ∃ h d, (scene_intersect Real.sqrt 0 (⟨0, 0, 0⟩ : Vec3 ℝ) ⟨0, 0, -1⟩
        [⟨⟨0, 0, -5⟩, 2, ⟨⟨255, 0, 0⟩, 1, 0, 50⟩⟩,
          ⟨⟨0, 0, -5⟩, 2, ⟨⟨0, 255, 0⟩, 1, 0, 50⟩⟩]).2 = some h ∧
      (∀ sp ∈ ([⟨⟨0, 0, -5⟩, 2, ⟨⟨255, 0, 0⟩, 1, 0, 50⟩⟩,
          ⟨⟨0, 0, -5⟩, 2, ⟨⟨0, 255, 0⟩, 1, 0, 50⟩⟩] : List (Sphere ℝ)),
        ∀ e, ray_intersect Real.sqrt 0 ⟨0, 0, 0⟩ ⟨0, 0, -1⟩ sp = some e → d ≤ e) ∧
      (∃ sp ∈ ([⟨⟨0, 0, -5⟩, 2, ⟨⟨255, 0, 0⟩, 1, 0, 50⟩⟩,
          ⟨⟨0, 0, -5⟩, 2, ⟨⟨0, 255, 0⟩, 1, 0, 50⟩⟩] : List (Sphere ℝ)),
        ray_intersect Real.sqrt 0 ⟨0, 0, 0⟩ ⟨0, 0, -1⟩ sp = some d ∧ h.m = sp.material) ∧
      h.hit = arrAdd ⟨0, 0, 0⟩ (arrScalarMult ⟨0, 0, -1⟩ d) :=
  ⟨by rw [scene_intersect_tie_example],
    C5_hit_is_nearest 0 ⟨0, 0, 0⟩ ⟨0, 0, -1⟩ _ (by rw [scene_intersect_tie_example])⟩

/-- Witness for C6: in the two-sphere scene both spheres are met at distance 3, a hit is
reported and the outputs are those of sphere number 0. -/
theorem C6_tie_keeps_first_witness :
    (ray_intersect Real.sqrt 0 (⟨0, 0, 0⟩ : Vec3 ℝ) ⟨0, 0, -1⟩
        ⟨⟨0, 0, -5⟩, 2, ⟨⟨255, 0, 0⟩, 1, 0, 50⟩⟩ = some 3 ∧
      ray_intersect Real.sqrt 0 (⟨0, 0, 0⟩ : Vec3 ℝ) ⟨0, 0, -1⟩
        ⟨⟨0, 0, -5⟩, 2, ⟨⟨0, 255, 0⟩, 1, 0, 50⟩⟩ = some 3 ∧
      (scene_intersect Real.sqrt 0 (⟨0, 0, 0⟩ : Vec3 ℝ) ⟨0, 0, -1⟩
        [⟨⟨0, 0, -5⟩, 2, ⟨⟨255, 0, 0⟩, 1, 0, 50⟩⟩,
          ⟨⟨0, 0, -5⟩, 2, ⟨⟨0, 255, 0⟩, 1, 0, 50⟩⟩]).1 = true) ∧
    scene_intersect Real.sqrt 0 (⟨0, 0, 0⟩ : Vec3 ℝ) ⟨0, 0, -1⟩
        [⟨⟨0, 0, -5⟩, 2, ⟨⟨255, 0, 0⟩, 1, 0, 50⟩⟩, ⟨⟨0, 0, -5⟩, 2, ⟨⟨0, 255, 0⟩, 1, 0, 50⟩⟩]
      = (true, some (record_at Real.sqrt ⟨0, 0, 0⟩ ⟨0, 0, -1⟩
          ⟨⟨0, 0, -5⟩, 2, ⟨⟨255, 0, 0⟩, 1, 0, 50⟩⟩ 3)) := by
  have hflag : (scene_intersect Real.sqrt 0 (⟨0, 0, 0⟩ : Vec3 ℝ) ⟨0, 0, -1⟩
      [⟨⟨0, 0, -5⟩, 2, ⟨⟨255, 0, 0⟩, 1, 0, 50⟩⟩,
        ⟨⟨0, 0, -5⟩, 2, ⟨⟨0, 255, 0⟩, 1, 0, 50⟩⟩]).1 = true := by
    rw [scene_intersect_tie_example]
  refine ⟨⟨ray_intersect_example 0 _, ray_intersect_example 0 _, hflag⟩, ?_⟩
  refine C6_tie_keeps_first 0 ⟨0, 0, 0⟩ ⟨0, 0, -1⟩ _ 0 _ 3 rfl (ray_intersect_example 0 _)
    ?_ ?_ hflag
  · intro sp hsp e he
    simp only [List.mem_cons, List.mem_singleton, List.not_mem_nil, or_false] at hsp
    rcases hsp with rfl | rfl <;>
    · rw [ray_intersect_example] at he
      cases he
      exact le_refl _
  · intro j sj hj
    exact absurd hj (Nat.not_lt_zero j)

/-- Witness for C7: a unit sphere centred at `(0,0,-2000)` is met by `ray_intersect` at
distance 1999, and the scene made of it is a miss. -/
theorem C7_hit_iff_below_cutoff_witness :
    ray_intersect Real.sqrt 0 (⟨0, 0, 0⟩ : Vec3 ℝ) ⟨0, 0, -1⟩
        ⟨⟨0, 0, -2000⟩, 1, ⟨⟨255, 0, 0⟩, 1, 0, 50⟩⟩ = some 1999 ∧
    (scene_intersect Real.sqrt 0 (⟨0, 0, 0⟩ : Vec3 ℝ) ⟨0, 0, -1⟩
        [⟨⟨0, 0, -2000⟩, 1, ⟨⟨255, 0, 0⟩, 1, 0, 50⟩⟩]).1 = false := by
  refine ⟨ray_intersect_cutoff_example 0 _, ?_⟩
  refine (C7_hit_iff_below_cutoff 0 ⟨0, 0, 0⟩ ⟨0, 0, -1⟩ _).2.1 ?_
  intro sp hsp e he
  simp only [List.mem_singleton] at hsp
  subst hsp
  rw [ray_intersect_cutoff_example] at he
  cases he
  norm_num

/-- Witness for C8: the two-sphere scene. -/
theorem C8_normal_is_unit_outward_witness :
    (vecNorm Real.sqrt (⟨0, 0, -1⟩ : Vec3 ℝ) = 1 ∧
      (∀ sp ∈ ([⟨⟨0, 0, -5⟩, 2, ⟨⟨255, 0, 0⟩, 1, 0, 50⟩⟩,
          ⟨⟨0, 0, -5⟩, 2, ⟨⟨0, 255, 0⟩, 1, 0, 50⟩⟩] : List (Sphere ℝ)), 0 < sp.radius) ∧
      (scene_intersect Real.sqrt 0 (⟨0, 0, 0⟩ : Vec3 ℝ) ⟨0, 0, -1⟩
        [⟨⟨0, 0, -5⟩, 2, ⟨⟨255, 0, 0⟩, 1, 0, 50⟩⟩,
          ⟨⟨0, 0, -5⟩, 2, ⟨⟨0, 255, 0⟩, 1, 0, 50⟩⟩]).1 = true) ∧
    ∃ S ∈ ([⟨⟨0, 0, -5⟩, 2, ⟨⟨255, 0, 0⟩, 1, 0, 50⟩⟩,
        ⟨⟨0, 0, -5⟩, 2, ⟨⟨0, 255, 0⟩, 1, 0, 50⟩⟩] : List (Sphere ℝ)),
      ∃ d h, ray_intersect Real.sqrt 0 ⟨0, 0, 0⟩ ⟨0, 0, -1⟩ S = some d ∧
      (∀ sp ∈ ([⟨⟨0, 0, -5⟩, 2, ⟨⟨255, 0, 0⟩, 1, 0, 50⟩⟩,
          ⟨⟨0, 0, -5⟩, 2, ⟨⟨0, 255, 0⟩, 1, 0, 50⟩⟩] : List (Sphere ℝ)),
        ∀ e, ray_intersect Real.sqrt 0 ⟨0, 0, 0⟩ ⟨0, 0, -1⟩ sp = some e → d ≤ e) ∧
      (scene_intersect Real.sqrt 0 (⟨0, 0, 0⟩ : Vec3 ℝ) ⟨0, 0, -1⟩
        [⟨⟨0, 0, -5⟩, 2, ⟨⟨255, 0, 0⟩, 1, 0, 50⟩⟩,
          ⟨⟨0, 0, -5⟩, 2, ⟨⟨0, 255, 0⟩, 1, 0, 50⟩⟩]).2 = some h ∧
      h.m = S.material ∧
      vecNorm Real.sqrt h.N = 1 ∧
      h.hit = arrAdd S.center (arrScalarMult h.N S.radius) ∧
      vecNorm Real.sqrt (arrSub h.hit S.center) = S.radius ∧
      arrSub h.hit S.center ≠ ⟨0, 0, 0⟩ := by
  have hrad : ∀ sp ∈ ([⟨⟨0, 0, -5⟩, 2, ⟨⟨255, 0, 0⟩, 1, 0, 50⟩⟩,
      ⟨⟨0, 0, -5⟩, 2, ⟨⟨0, 255, 0⟩, 1, 0, 50⟩⟩] : List (Sphere ℝ)), 0 < sp.radius := by
    intro sp hsp
    simp only [List.mem_cons, List.mem_singleton, List.not_mem_nil, or_false] at hsp
    rcases hsp with rfl | rfl <;> norm_num
  have hflag : (scene_intersect Real.sqrt 0 (⟨0, 0, 0⟩ : Vec3 ℝ) ⟨0, 0, -1⟩
      [⟨⟨0, 0, -5⟩, 2, ⟨⟨255, 0, 0⟩, 1, 0, 50⟩⟩,
        ⟨⟨0, 0, -5⟩, 2, ⟨⟨0, 255, 0⟩, 1, 0, 50⟩⟩]).1 = true := by
    rw [scene_intersect_tie_example]
  exact ⟨⟨vecNorm_down, hrad, hflag⟩,
    C8_normal_is_unit_outward 0 ⟨0, 0, 0⟩ ⟨0, 0, -1⟩ _ vecNorm_down hrad hflag⟩

end Witnesses2

/-! ## Theorems: `cast_ray` -/

section Shading

/-- With at least three spheres in the array, `cast_ray` is decided by the scene query over the
first three. -/
lemma cast_ray_eq {F : Type} [LinearOrderedField F] [FloorRing F] (sqrtf : F → F)
    (powf : F → F → F) (t0 : Nat) (origin dir : Vec3 F) (s : List (Sphere F))
    (l : List (Light F)) (hlen : 3 ≤ s.length) :
    cast_ray sqrtf powf t0 origin dir s l =
      match scene_intersect sqrtf t0 origin dir (s.take 3) with
      | (false, _) => some ⟨5, 100, 250⟩
      | (true, some h) => shade sqrtf powf dir l h
      | (true, none) => none := by
  unfold cast_ray
  rw [if_neg (not_lt.mpr hlen)]

/-- C9: for every ray, sphere array (holding the three spheres that line 93 reads) and light
list, if the scene query made by `cast_ray` reports no hit, and also if the scene query over
the whole array reports no hit, `cast_ray` writes exactly the colour `(5, 100, 250)`, whatever
the lights and the materials. -/
theorem C9_miss_is_background (powf : ℝ → ℝ → ℝ) (t0 : Nat) (origin dir : Vec3 ℝ)
    (s : List (Sphere ℝ)) (l : List (Light ℝ)) (hlen : 3 ≤ s.length) :
    ((scene_intersect Real.sqrt t0 origin dir (s.take 3)).1 = false →
      cast_ray Real.sqrt powf t0 origin dir s l = some ⟨5, 100, 250⟩) ∧
    ((scene_intersect Real.sqrt t0 origin dir s).1 = false →
      cast_ray Real.sqrt powf t0 origin dir s l = some ⟨5, 100, 250⟩) := by
  have hfirst : (scene_intersect Real.sqrt t0 origin dir (s.take 3)).1 = false →
      cast_ray Real.sqrt powf t0 origin dir s l = some ⟨5, 100, 250⟩ := by
    intro hmiss
    rw [cast_ray_eq Real.sqrt powf t0 origin dir s l hlen]
    rcases hsc : scene_intersect Real.sqrt t0 origin dir (s.take 3) with ⟨b, out⟩
    rw [hsc] at hmiss
    simp only at hmiss
    subst hmiss
    rfl
  refine ⟨hfirst, ?_⟩
  intro hmiss
  apply hfirst
  rw [← Bool.not_eq_true, scene_flag_iff] at hmiss ⊢
  rintro ⟨sp, hsp, e, he, hlt⟩
  exact hmiss ⟨sp, List.mem_of_mem_take hsp, e, he, hlt⟩

/-- The light loop computes the two sums of the specification. -/
lemma light_fold (powf : ℝ → ℝ → ℝ) (dir : Vec3 ℝ) (h : HitRecord ℝ) (l : List (Light ℝ))
    (acc : LightAcc ℝ) :
    l.foldl (light_step Real.sqrt powf h.hit h.N dir h.m) acc =
      ⟨acc.diffuse_light_intensity + spec_diffuse Real.sqrt l h,
        acc.specular_light_intensity + spec_specular Real.sqrt powf dir l h⟩ := by
  induction l generalizing acc with
  | nil => simp [spec_diffuse, spec_specular]
  | cons a t ih =>
    rw [List.foldl_cons, ih]
    have hneg : arrScalarMult (normalize Real.sqrt (arrSub a.position h.hit)) (-1)
        = vecNeg (normalize Real.sqrt (arrSub a.position h.hit)) := by
      simp [arrScalarMult, vecNeg]
    have hmax : ∀ v : ℝ, (if 0 ≥ v then 0 else v) = max 0 v := by
      intro v
      split_ifs with hv
      · exact (max_eq_left hv).symm
      · exact (max_eq_right (not_le.mp hv).le).symm
    have hmax2 : ∀ v : ℝ, (if 0 > -v then 0 else -v) = max 0 (-v) := by
      intro v
      split_ifs with hv
      · exact (max_eq_left hv.le).symm
      · exact (max_eq_right (not_lt.mp hv)).symm
    simp only [light_step, spec_diffuse, spec_specular, spec_light_dir, List.map_cons,
      List.sum_cons, hneg, hmax, hmax2]
    congr 1 <;> ring

/-- A channel whose product with `k` is non-negative is converted without overflow. -/
lemma channel_eq (c k : ℝ) (hck : 0 ≤ c * k) :
    channel c k = some (Nat.floor (min 255 (c * k))) ∧ Nat.floor (min 255 (c * k)) ≤ 255 := by
  have hmin : (if c * k > 255 then (255 : ℝ) else c * k) = min 255 (c * k) := by
    split_ifs with hv
    · exact (min_eq_left hv.le).symm
    · exact (min_eq_right (not_lt.mp hv)).symm
  have h0 : (0 : ℝ) ≤ min 255 (c * k) := le_min (by norm_num) hck
  have h255 : min 255 (c * k) ≤ 255 := min_le_left _ _
  constructor
  · unfold channel float_to_uchar
    rw [hmin, if_pos ⟨by linarith, by linarith⟩]
    rfl
  · have := Nat.floor_le h0
    have h2 : ((Nat.floor (min 255 (c * k)) : ℕ) : ℝ) ≤ ((255 : ℕ) : ℝ) := by
      push_cast
      linarith
    exact_mod_cast h2

end Shading

section Shading2

lemma spec_diffuse_nonneg (l : List (Light ℝ)) (h : HitRecord ℝ)
    (hint : ∀ li ∈ l, 0 ≤ li.intensity) : 0 ≤ spec_diffuse Real.sqrt l h := by
  unfold spec_diffuse
  apply List.sum_nonneg
  intro v hv
  obtain ⟨li, hli, rfl⟩ := List.mem_map.mp hv
  exact mul_nonneg (hint li hli) (le_max_left _ _)

lemma spec_specular_nonneg (dir : Vec3 ℝ) (l : List (Light ℝ)) (h : HitRecord ℝ)
    (hint : ∀ li ∈ l, 0 ≤ li.intensity) :
    0 ≤ spec_specular Real.sqrt (fun v e => v ^ e) dir l h := by
  unfold spec_specular
  apply List.sum_nonneg
  intro v hv
  obtain ⟨li, hli, rfl⟩ := List.mem_map.mp hv
  exact mul_nonneg (hint li hli) (Real.rpow_nonneg (le_max_left _ _) _)

/-- The `else` branch of `cast_ray` for non-negative colour, albedo and intensities: every
channel is the integer part of `min(255, diffuse_color[c] * k)` and is at most 255. -/
lemma shade_eq (dir : Vec3 ℝ) (l : List (Light ℝ)) (h : HitRecord ℝ)
    (hcx : 0 ≤ h.m.diffuse_color.x) (hcy : 0 ≤ h.m.diffuse_color.y)
    (hcz : 0 ≤ h.m.diffuse_color.z)
    (ha0 : 0 ≤ h.m.albedo0) (ha1 : 0 ≤ h.m.albedo1)
    (hint : ∀ li ∈ l, 0 ≤ li.intensity) :
    shade Real.sqrt (fun v e => v ^ e) dir l h
      = some ⟨Nat.floor (min 255
            (h.m.diffuse_color.x * spec_k Real.sqrt (fun v e => v ^ e) dir l h)),
          Nat.floor (min 255
            (h.m.diffuse_color.y * spec_k Real.sqrt (fun v e => v ^ e) dir l h)),
          Nat.floor (min 255
            (h.m.diffuse_color.z * spec_k Real.sqrt (fun v e => v ^ e) dir l h))⟩ ∧
    Nat.floor (min 255
      (h.m.diffuse_color.x * spec_k Real.sqrt (fun v e => v ^ e) dir l h)) ≤ 255 ∧
    Nat.floor (min 255
      (h.m.diffuse_color.y * spec_k Real.sqrt (fun v e => v ^ e) dir l h)) ≤ 255 ∧
    Nat.floor (min 255
      (h.m.diffuse_color.z * spec_k Real.sqrt (fun v e => v ^ e) dir l h)) ≤ 255 := by
  have hk : 0 ≤ spec_k Real.sqrt (fun v e => v ^ e) dir l h :=
    add_nonneg (mul_nonneg ha0 (spec_diffuse_nonneg l h hint))
      (mul_nonneg ha1 (spec_specular_nonneg dir l h hint))
  obtain ⟨hx, hx255⟩ := channel_eq _ _ (mul_nonneg hcx hk)
  obtain ⟨hy, hy255⟩ := channel_eq _ _ (mul_nonneg hcy hk)
  obtain ⟨hz, hz255⟩ := channel_eq _ _ (mul_nonneg hcz hk)
  refine ⟨?_, hx255, hy255, hz255⟩
  have hkk : (0 + spec_diffuse Real.sqrt l h) * h.m.albedo0
      + (0 + spec_specular Real.sqrt (fun v e => v ^ e) dir l h) * h.m.albedo1
      = spec_k Real.sqrt (fun v e => v ^ e) dir l h := by
    unfold spec_k
    ring
  simp only [shade, light_fold, hkk, hx, hy, hz]

/-- C10 (amended): over exact real arithmetic, when the scene query of `cast_ray` returns a
hit record with unit normal, the ray
direction is a unit vector, the diffuse colour, the albedo, the exponent and the light
intensities are non-negative and no light is at the hit point, `cast_ray` writes for each
channel `c` the integer part of `min(255, diffuse_color[c] * k)`, with `k` the factor of the
specification; every channel is at most 255. -/
theorem C10_shading_formula (t0 : Nat) (origin dir : Vec3 ℝ) (s : List (Sphere ℝ))
    (l : List (Light ℝ)) (h : HitRecord ℝ) (hlen : 3 ≤ s.length)
    (hhit : scene_intersect Real.sqrt t0 origin dir (s.take 3) = (true, some h))
    (_hN : vecNorm Real.sqrt h.N = 1) (_hdir : vecNorm Real.sqrt dir = 1)
    (hcx : 0 ≤ h.m.diffuse_color.x) (hcy : 0 ≤ h.m.diffuse_color.y)
    (hcz : 0 ≤ h.m.diffuse_color.z)
    (ha0 : 0 ≤ h.m.albedo0) (ha1 : 0 ≤ h.m.albedo1) (_hexp : 0 ≤ h.m.specular_exponent)
    (hint : ∀ li ∈ l, 0 ≤ li.intensity) (_hpos : ∀ li ∈ l, li.position ≠ h.hit) :
    cast_ray Real.sqrt (fun v e => v ^ e) t0 origin dir s l
      = some ⟨Nat.floor (min 255
            (h.m.diffuse_color.x * spec_k Real.sqrt (fun v e => v ^ e) dir l h)),
          Nat.floor (min 255
            (h.m.diffuse_color.y * spec_k Real.sqrt (fun v e => v ^ e) dir l h)),
          Nat.floor (min 255
            (h.m.diffuse_color.z * spec_k Real.sqrt (fun v e => v ^ e) dir l h))⟩ ∧
    Nat.floor (min 255
      (h.m.diffuse_color.x * spec_k Real.sqrt (fun v e => v ^ e) dir l h)) ≤ 255 ∧
    Nat.floor (min 255
      (h.m.diffuse_color.y * spec_k Real.sqrt (fun v e => v ^ e) dir l h)) ≤ 255 ∧
    Nat.floor (min 255
      (h.m.diffuse_color.z * spec_k Real.sqrt (fun v e => v ^ e) dir l h)) ≤ 255 := by
  rw [cast_ray_eq Real.sqrt _ t0 origin dir s l hlen, hhit]
  exact shade_eq dir l h hcx hcy hcz ha0 ha1 hint

end Shading2

section Witnesses3

lemma sqrt_four : Real.sqrt 4 = 2 := by
  rw [show (4 : ℝ) = 2 * 2 by norm_num]
  exact Real.sqrt_mul_self (by norm_num)

/-- Three spheres of radius 2 centred at `(0,0,-5)`, seen from the origin down the negative
z axis: the hit point is `(0,0,-3)`, the normal `(0,0,1)` and the material that of the first
sphere. -/
lemma scene_intersect_three_example (t0 : Nat) :
    scene_intersect Real.sqrt t0 (⟨0, 0, 0⟩ : Vec3 ℝ) ⟨0, 0, -1⟩
        (List.take 3 [⟨⟨0, 0, -5⟩, 2, ⟨⟨255, 0, 0⟩, 6 / 10, 3 / 10, 50⟩⟩,
          ⟨⟨0, 0, -5⟩, 2, ⟨⟨0, 255, 0⟩, 1, 0, 50⟩⟩,
          ⟨⟨0, 0, -5⟩, 2, ⟨⟨0, 0, 255⟩, 1, 0, 50⟩⟩])
      = (true, some ⟨⟨0, 0, -3⟩, ⟨0, 0, 1⟩, ⟨⟨255, 0, 0⟩, 6 / 10, 3 / 10, 50⟩⟩) := by
  simp only [List.take, scene_intersect, scene_scan, List.foldl_cons, List.foldl_nil,
    scene_step, ray_intersect_example, normalize, vecNorm, dotProduct, arrSub, arrAdd,
    arrScalarMult]
  norm_num [INT_MAX, sqrt_four]

/-- Three unit spheres centred at `(0,0,-2000)`: the scene query is a miss. -/
lemma scene_intersect_far_three_example (t0 : Nat) :
    (scene_intersect Real.sqrt t0 (⟨0, 0, 0⟩ : Vec3 ℝ) ⟨0, 0, -1⟩
        (List.take 3 [⟨⟨0, 0, -2000⟩, 1, ⟨⟨255, 0, 0⟩, 1, 0, 50⟩⟩,
          ⟨⟨0, 0, -2000⟩, 1, ⟨⟨0, 255, 0⟩, 1, 0, 50⟩⟩,
          ⟨⟨0, 0, -2000⟩, 1, ⟨⟨0, 0, 255⟩, 1, 0, 50⟩⟩])).1 = false := by
  simp only [List.take, scene_intersect, scene_scan, List.foldl_cons, List.foldl_nil,
    scene_step, ray_intersect_cutoff_example]
  norm_num [INT_MAX]

/-- Witness for C9: three spheres beyond the cutoff and one light. -/
theorem C9_miss_is_background_witness :
    (3 ≤ ([⟨⟨0, 0, -2000⟩, 1, ⟨⟨255, 0, 0⟩, 1, 0, 50⟩⟩,
        ⟨⟨0, 0, -2000⟩, 1, ⟨⟨0, 255, 0⟩, 1, 0, 50⟩⟩,
        ⟨⟨0, 0, -2000⟩, 1, ⟨⟨0, 0, 255⟩, 1, 0, 50⟩⟩] : List (Sphere ℝ)).length ∧
      (scene_intersect Real.sqrt 0 (⟨0, 0, 0⟩ : Vec3 ℝ) ⟨0, 0, -1⟩
        (List.take 3 [⟨⟨0, 0, -2000⟩, 1, ⟨⟨255, 0, 0⟩, 1, 0, 50⟩⟩,
          ⟨⟨0, 0, -2000⟩, 1, ⟨⟨0, 255, 0⟩, 1, 0, 50⟩⟩,
          ⟨⟨0, 0, -2000⟩, 1, ⟨⟨0, 0, 255⟩, 1, 0, 50⟩⟩])).1 = false) ∧
    cast_ray Real.sqrt (fun v e => v ^ e) 0 (⟨0, 0, 0⟩ : Vec3 ℝ) ⟨0, 0, -1⟩
        [⟨⟨0, 0, -2000⟩, 1, ⟨⟨255, 0, 0⟩, 1, 0, 50⟩⟩,
          ⟨⟨0, 0, -2000⟩, 1, ⟨⟨0, 255, 0⟩, 1, 0, 50⟩⟩,
          ⟨⟨0, 0, -2000⟩, 1, ⟨⟨0, 0, 255⟩, 1, 0, 50⟩⟩]
        [⟨⟨0, 20, 0⟩, 1⟩]
      = some ⟨5, 100, 250⟩ :=
  ⟨⟨by simp, scene_intersect_far_three_example 0⟩,
    (C9_miss_is_background (fun v e => v ^ e) 0 ⟨0, 0, 0⟩ ⟨0, 0, -1⟩ _ [⟨⟨0, 20, 0⟩, 1⟩]
      (by simp)).1 (scene_intersect_far_three_example 0)⟩

/-- Witness for C10: the three spheres at `(0,0,-5)` lit by one light of intensity 1 placed at
the origin. -/
theorem C10_shading_formula_witness :
    (3 ≤ ([⟨⟨0, 0, -5⟩, 2, ⟨⟨255, 0, 0⟩, 6 / 10, 3 / 10, 50⟩⟩,
        ⟨⟨0, 0, -5⟩, 2, ⟨⟨0, 255, 0⟩, 1, 0, 50⟩⟩,
        ⟨⟨0, 0, -5⟩, 2, ⟨⟨0, 0, 255⟩, 1, 0, 50⟩⟩] : List (Sphere ℝ)).length ∧
      scene_intersect Real.sqrt 0 (⟨0, 0, 0⟩ : Vec3 ℝ) ⟨0, 0, -1⟩
          (List.take 3 [⟨⟨0, 0, -5⟩, 2, ⟨⟨255, 0, 0⟩, 6 / 10, 3 / 10, 50⟩⟩,
            ⟨⟨0, 0, -5⟩, 2, ⟨⟨0, 255, 0⟩, 1, 0, 50⟩⟩,
            ⟨⟨0, 0, -5⟩, 2, ⟨⟨0, 0, 255⟩, 1, 0, 50⟩⟩])
        = (true, some ⟨⟨0, 0, -3⟩, ⟨0, 0, 1⟩, ⟨⟨255, 0, 0⟩, 6 / 10, 3 / 10, 50⟩⟩) ∧
      vecNorm Real.sqrt (⟨0, 0, 1⟩ : Vec3 ℝ) = 1 ∧
      vecNorm Real.sqrt (⟨0, 0, -1⟩ : Vec3 ℝ) = 1 ∧
      (∀ li ∈ ([⟨⟨0, 0, 0⟩, 1⟩] : List (Light ℝ)), 0 ≤ li.intensity) ∧
      (∀ li ∈ ([⟨⟨0, 0, 0⟩, 1⟩] : List (Light ℝ)), li.position ≠ ⟨0, 0, -3⟩)) ∧
    cast_ray Real.sqrt (fun v e => v ^ e) 0 (⟨0, 0, 0⟩ : Vec3 ℝ) ⟨0, 0, -1⟩
        [⟨⟨0, 0, -5⟩, 2, ⟨⟨255, 0, 0⟩, 6 / 10, 3 / 10, 50⟩⟩,
          ⟨⟨0, 0, -5⟩, 2, ⟨⟨0, 255, 0⟩, 1, 0, 50⟩⟩,
          ⟨⟨0, 0, -5⟩, 2, ⟨⟨0, 0, 255⟩, 1, 0, 50⟩⟩]
        [⟨⟨0, 0, 0⟩, 1⟩]
      = some ⟨Nat.floor (min 255 ((255 : ℝ) * spec_k Real.sqrt (fun v e => v ^ e)
            ⟨0, 0, -1⟩ [⟨⟨0, 0, 0⟩, 1⟩]
            ⟨⟨0, 0, -3⟩, ⟨0, 0, 1⟩, ⟨⟨255, 0, 0⟩, 6 / 10, 3 / 10, 50⟩⟩)),
          Nat.floor (min 255 ((0 : ℝ) * spec_k Real.sqrt (fun v e => v ^ e)
            ⟨0, 0, -1⟩ [⟨⟨0, 0, 0⟩, 1⟩]
            ⟨⟨0, 0, -3⟩, ⟨0, 0, 1⟩, ⟨⟨255, 0, 0⟩, 6 / 10, 3 / 10, 50⟩⟩)),
          Nat.floor (min 255 ((0 : ℝ) * spec_k Real.sqrt (fun v e => v ^ e)
            ⟨0, 0, -1⟩ [⟨⟨0, 0, 0⟩, 1⟩]
            ⟨⟨0, 0, -3⟩, ⟨0, 0, 1⟩, ⟨⟨255, 0, 0⟩, 6 / 10, 3 / 10, 50⟩⟩))⟩ := by
  have hup : vecNorm Real.sqrt (⟨0, 0, 1⟩ : Vec3 ℝ) = 1 := by
    rw [vecNorm_eq_iff _ zero_le_one]
    norm_num [dotProduct]
  have hint : ∀ li ∈ ([⟨⟨0, 0, 0⟩, 1⟩] : List (Light ℝ)), 0 ≤ li.intensity := by
    intro li hli
    simp only [List.mem_singleton] at hli
    subst hli
    exact zero_le_one
  have hpos : ∀ li ∈ ([⟨⟨0, 0, 0⟩, 1⟩] : List (Light ℝ)),
      li.position ≠ (⟨0, 0, -3⟩ : Vec3 ℝ) := by
    intro li hli
    simp only [List.mem_singleton] at hli
    subst hli
    intro hzero
    have := congrArg Vec3.z hzero
    norm_num at this
  exact ⟨⟨by simp, scene_intersect_three_example 0, hup, vecNorm_down, hint, hpos⟩,
    (C10_shading_formula 0 ⟨0, 0, 0⟩ ⟨0, 0, -1⟩ _ [⟨⟨0, 0, 0⟩, 1⟩]
      ⟨⟨0, 0, -3⟩, ⟨0, 0, 1⟩, ⟨⟨255, 0, 0⟩, 6 / 10, 3 / 10, 50⟩⟩ (by simp)
      (scene_intersect_three_example 0) hup vecNorm_down (by norm_num) (by norm_num)
      (by norm_num) (by norm_num) (by norm_num) (by norm_num) hint hpos).1⟩

end Witnesses3

section Example

lemma sqrt_nine : Real.sqrt 9 = 3 := by
  rw [show (9 : ℝ) = 3 * 3 by norm_num]
  exact Real.sqrt_mul_self (by norm_num)

/-- The factor `k` of the example scene is `0.6 * 1 + 0.3 * 1`. -/
lemma spec_k_example :
    spec_k Real.sqrt (fun v e => v ^ e) (⟨0, 0, -1⟩ : Vec3 ℝ) [⟨⟨0, 0, 0⟩, 1⟩]
      ⟨⟨0, 0, -3⟩, ⟨0, 0, 1⟩, ⟨⟨255, 0, 0⟩, 6 / 10, 3 / 10, 50⟩⟩ = 9 / 10 := by
  simp only [spec_k, spec_diffuse, spec_specular, spec_light_dir, normalize, vecNorm,
    dotProduct, arrSub, reflect, vecNeg, arrScalarMult, List.map_cons, List.map_nil,
    List.sum_cons, List.sum_nil]
  norm_num [sqrt_nine]

/-- The example scene end to end: the pixel colour is `(229, 0, 0)`, the integer part of
`255 * 0.9 = 229.5` in the red channel. -/
lemma cast_ray_example :
    cast_ray Real.sqrt (fun v e => v ^ e) 0 (⟨0, 0, 0⟩ : Vec3 ℝ) ⟨0, 0, -1⟩
        [⟨⟨0, 0, -5⟩, 2, ⟨⟨255, 0, 0⟩, 6 / 10, 3 / 10, 50⟩⟩,
          ⟨⟨0, 0, -5⟩, 2, ⟨⟨0, 255, 0⟩, 1, 0, 50⟩⟩,
          ⟨⟨0, 0, -5⟩, 2, ⟨⟨0, 0, 255⟩, 1, 0, 50⟩⟩]
        [⟨⟨0, 0, 0⟩, 1⟩]
      = some ⟨229, 0, 0⟩ := by
  rw [cast_ray_eq _ _ _ _ _ _ _ (by simp), scene_intersect_three_example]
  have hint : ∀ li ∈ ([⟨⟨0, 0, 0⟩, 1⟩] : List (Light ℝ)), 0 ≤ li.intensity := by
    intro li hli
    simp only [List.mem_singleton] at hli
    subst hli
    exact zero_le_one
  have hsh := (shade_eq ⟨0, 0, -1⟩ [⟨⟨0, 0, 0⟩, 1⟩]
    ⟨⟨0, 0, -3⟩, ⟨0, 0, 1⟩, ⟨⟨255, 0, 0⟩, 6 / 10, 3 / 10, 50⟩⟩ (by norm_num) (by norm_num)
    (by norm_num) (by norm_num) (by norm_num) hint).1
  simp only [spec_k_example] at hsh
  have h229 : Nat.floor (min (255 : ℝ) (255 * (9 / 10))) = 229 := by
    rw [Nat.floor_eq_iff (by norm_num)]
    norm_num
  have h0 : Nat.floor (min (255 : ℝ) (0 * (9 / 10))) = 0 := by
    norm_num
  rw [h229, h0] at hsh
  exact hsh

end Example

/-! ## Theorems: vector helpers and scan order -/

section Algebra

lemma unit_dot {u : Vec3 ℝ} (hu : vecNorm Real.sqrt u = 1) : dotProduct u u = 1 := by
  have := (vecNorm_eq_iff u zero_le_one).mp hu
  simpa using this

/-- The norm of a non-zero vector is positive. -/
lemma vecNorm_pos (v : Vec3 ℝ) (hv : v ≠ ⟨0, 0, 0⟩) : 0 < vecNorm Real.sqrt v := by
  unfold vecNorm
  apply Real.sqrt_pos.mpr
  rcases lt_or_eq_of_le (dotProduct_self_nonneg v) with h | h
  · exact h
  · exfalso
    apply hv
    simp only [dotProduct] at h
    have hx : v.x = 0 := by nlinarith [mul_self_nonneg v.x, mul_self_nonneg v.y, mul_self_nonneg v.z]
    have hy : v.y = 0 := by nlinarith [mul_self_nonneg v.x, mul_self_nonneg v.y, mul_self_nonneg v.z]
    have hz : v.z = 0 := by nlinarith [mul_self_nonneg v.x, mul_self_nonneg v.y, mul_self_nonneg v.z]
    ext
    · exact hx
    · exact hy
    · exact hz

/-- The result of `normalize` on a non-zero vector has norm 1. -/
lemma normalize_norm (v : Vec3 ℝ) (hv : v ≠ ⟨0, 0, 0⟩) :
    vecNorm Real.sqrt (normalize Real.sqrt v) = 1 := by
  have hpos := vecNorm_pos v hv
  have hsq : dotProduct v v = vecNorm Real.sqrt v * vecNorm Real.sqrt v :=
    (vecNorm_eq_iff v hpos.le).mp rfl
  rw [vecNorm_eq_iff _ zero_le_one]
  simp only [normalize]
  generalize vecNorm Real.sqrt v = n at hpos hsq
  simp only [dotProduct] at hsq ⊢
  field_simp
  linarith

end Algebra

section Algebra2

/-- The model of `normalize` on `(3,4,0)`: the result is `(3/5, 4/5, 0)`. -/
lemma normalize_example : normalize Real.sqrt (⟨3, 4, 0⟩ : Vec3 ℝ) = ⟨3 / 5, 4 / 5, 0⟩ := by
  have h : vecNorm Real.sqrt (⟨3, 4, 0⟩ : Vec3 ℝ) = 5 := by
    rw [vecNorm_eq_iff _ (by norm_num)]
    norm_num [dotProduct]
  simp only [normalize, h]
  norm_num

end Algebra2

section Permutation

/-- With pairwise distinct successful distances, two spheres of the list met at the same
distance are the same sphere. -/
lemma same_sphere_of_nodup (t0 : Nat) (origin dir : Vec3 ℝ) (s : List (Sphere ℝ))
    (hnd : (s.filterMap (ray_intersect Real.sqrt t0 origin dir)).Nodup)
    (a b : Sphere ℝ) (ha : a ∈ s) (hb : b ∈ s) (d : ℝ)
    (hda : ray_intersect Real.sqrt t0 origin dir a = some d)
    (hdb : ray_intersect Real.sqrt t0 origin dir b = some d) : a = b := by
  induction s with
  | nil => cases ha
  | cons c t ih =>
    have hmemd : ∀ x ∈ t, ray_intersect Real.sqrt t0 origin dir x = some d →
        d ∈ t.filterMap (ray_intersect Real.sqrt t0 origin dir) :=
      fun x hx hxd => List.mem_filterMap.mpr ⟨x, hx, hxd⟩
    rcases List.mem_cons.mp ha with rfl | ha'
    · rcases List.mem_cons.mp hb with rfl | hb'
      · rfl
      · exfalso
        rw [List.filterMap_cons_some hda, List.nodup_cons] at hnd
        exact hnd.1 (hmemd b hb' hdb)
    · rcases List.mem_cons.mp hb with rfl | hb'
      · exfalso
        rw [List.filterMap_cons_some hdb, List.nodup_cons] at hnd
        exact hnd.1 (hmemd a ha' hda)
      · apply ih _ ha' hb'
        cases hc : ray_intersect Real.sqrt t0 origin dir c with
        | none =>
          rw [List.filterMap_cons_none hc] at hnd
          exact hnd
        | some e =>
          rw [List.filterMap_cons_some hc, List.nodup_cons] at hnd
          exact hnd.2

/-- C18: when the successful intersection distances of a sphere list are pairwise distinct,
`scene_intersect` returns the same flag, hit point, normal and material on every permutation
of the list. -/
theorem C18_scan_order_independent (t0 : Nat) (origin dir : Vec3 ℝ)
    (s p : List (Sphere ℝ)) (hperm : p.Perm s)
    (hnd : (s.filterMap (ray_intersect Real.sqrt t0 origin dir)).Nodup) :
    scene_intersect Real.sqrt t0 origin dir p = scene_intersect Real.sqrt t0 origin dir s := by
  have hmem : ∀ x, x ∈ p ↔ x ∈ s := fun x => hperm.mem_iff
  rcases scene_intersect_cases t0 origin dir s with
    ⟨hfin, hall⟩ | ⟨pre, si, post, dm, hs, hray, hd, hpre, hpost, hfin⟩
  · rcases scene_intersect_cases t0 origin dir p with
      ⟨hfin2, _⟩ | ⟨pre2, sk, post2, dk, hs2, hray2, hd2, _, _, _⟩
    · rw [hfin, hfin2]
    · exfalso
      have hk : sk ∈ s := (hmem sk).mp (by simp [hs2])
      exact absurd hd2 (not_lt.mpr (hall sk hk dk hray2))
  · have hsi : si ∈ s := by simp [hs]
    have hmin := least_of_split t0 origin dir pre post si dm hray hpre hpost
    rw [← hs] at hmin
    rcases scene_intersect_cases t0 origin dir p with
      ⟨_, hall2⟩ | ⟨pre2, sk, post2, dk, hs2, hray2, _, hpre2, hpost2, hfin2⟩
    · exfalso
      exact absurd hd (not_lt.mpr (hall2 si ((hmem si).mpr hsi) dm hray))
    · have hk : sk ∈ s := (hmem sk).mp (by simp [hs2])
      have hmin2 := least_of_split t0 origin dir pre2 post2 sk dk hray2 hpre2 hpost2
      rw [← hs2] at hmin2
      have hdd : dk = dm :=
        le_antisymm (hmin2 si ((hmem si).mpr hsi) dm hray) (hmin sk hk dk hray2)
      subst hdd
      have hsame : sk = si := same_sphere_of_nodup t0 origin dir s hnd sk si hk hsi dk hray2 hray
      subst hsame
      rw [hfin, hfin2]

end Permutation

section Witnesses4

lemma filterMap_two_example :
    List.filterMap (ray_intersect Real.sqrt 0 (⟨0, 0, 0⟩ : Vec3 ℝ) ⟨0, 0, -1⟩)
        [⟨⟨0, 0, -5⟩, 2, ⟨⟨255, 0, 0⟩, 1, 0, 50⟩⟩, ⟨⟨0, 0, -2000⟩, 1, ⟨⟨0, 255, 0⟩, 1, 0, 50⟩⟩]
      = [3, 1999] := by
  rw [List.filterMap_cons_some (ray_intersect_example 0 _),
    List.filterMap_cons_some (ray_intersect_cutoff_example 0 _), List.filterMap_nil]

/-- Witness for C18: a sphere met at distance 3 and one met at distance 1999, in both
orders. -/
theorem C18_scan_order_independent_witness :
    (List.Perm
        ([⟨⟨0, 0, -2000⟩, 1, ⟨⟨0, 255, 0⟩, 1, 0, 50⟩⟩,
          ⟨⟨0, 0, -5⟩, 2, ⟨⟨255, 0, 0⟩, 1, 0, 50⟩⟩] : List (Sphere ℝ))
        [⟨⟨0, 0, -5⟩, 2, ⟨⟨255, 0, 0⟩, 1, 0, 50⟩⟩,
          ⟨⟨0, 0, -2000⟩, 1, ⟨⟨0, 255, 0⟩, 1, 0, 50⟩⟩] ∧
      (List.filterMap (ray_intersect Real.sqrt 0 (⟨0, 0, 0⟩ : Vec3 ℝ) ⟨0, 0, -1⟩)
        [⟨⟨0, 0, -5⟩, 2, ⟨⟨255, 0, 0⟩, 1, 0, 50⟩⟩,
          ⟨⟨0, 0, -2000⟩, 1, ⟨⟨0, 255, 0⟩, 1, 0, 50⟩⟩]).Nodup) ∧
    scene_intersect Real.sqrt 0 (⟨0, 0, 0⟩ : Vec3 ℝ) ⟨0, 0, -1⟩
        [⟨⟨0, 0, -2000⟩, 1, ⟨⟨0, 255, 0⟩, 1, 0, 50⟩⟩,
          ⟨⟨0, 0, -5⟩, 2, ⟨⟨255, 0, 0⟩, 1, 0, 50⟩⟩]
      = scene_intersect Real.sqrt 0 (⟨0, 0, 0⟩ : Vec3 ℝ) ⟨0, 0, -1⟩
        [⟨⟨0, 0, -5⟩, 2, ⟨⟨255, 0, 0⟩, 1, 0, 50⟩⟩,
          ⟨⟨0, 0, -2000⟩, 1, ⟨⟨0, 255, 0⟩, 1, 0, 50⟩⟩] := by
  have hnd : (List.filterMap (ray_intersect Real.sqrt 0 (⟨0, 0, 0⟩ : Vec3 ℝ) ⟨0, 0, -1⟩)
      [⟨⟨0, 0, -5⟩, 2, ⟨⟨255, 0, 0⟩, 1, 0, 50⟩⟩,
        ⟨⟨0, 0, -2000⟩, 1, ⟨⟨0, 255, 0⟩, 1, 0, 50⟩⟩]).Nodup := by
    rw [filterMap_two_example]
    norm_num
  exact ⟨⟨List.Perm.swap _ _ _, hnd⟩,
    C18_scan_order_independent 0 ⟨0, 0, 0⟩ ⟨0, 0, -1⟩ _ _ (List.Perm.swap _ _ _) hnd⟩

/-- Distinctness is needed in C18: the two spheres of `scene_intersect_tie_example`, met at
the same distance, give different materials in the two scan orders. -/
lemma scan_order_matters_on_tie :
    scene_intersect Real.sqrt 0 (⟨0, 0, 0⟩ : Vec3 ℝ) ⟨0, 0, -1⟩
        [⟨⟨0, 0, -5⟩, 2, ⟨⟨0, 255, 0⟩, 1, 0, 50⟩⟩, ⟨⟨0, 0, -5⟩, 2, ⟨⟨255, 0, 0⟩, 1, 0, 50⟩⟩]
      ≠ scene_intersect Real.sqrt 0 (⟨0, 0, 0⟩ : Vec3 ℝ) ⟨0, 0, -1⟩
        [⟨⟨0, 0, -5⟩, 2, ⟨⟨255, 0, 0⟩, 1, 0, 50⟩⟩,
          ⟨⟨0, 0, -5⟩, 2, ⟨⟨0, 255, 0⟩, 1, 0, 50⟩⟩] := by
  rw [scene_intersect_tie_example]
  have h : scene_intersect Real.sqrt 0 (⟨0, 0, 0⟩ : Vec3 ℝ) ⟨0, 0, -1⟩
      [⟨⟨0, 0, -5⟩, 2, ⟨⟨0, 255, 0⟩, 1, 0, 50⟩⟩, ⟨⟨0, 0, -5⟩, 2, ⟨⟨255, 0, 0⟩, 1, 0, 50⟩⟩]
      = (true, some (record_at Real.sqrt ⟨0, 0, 0⟩ ⟨0, 0, -1⟩
          ⟨⟨0, 0, -5⟩, 2, ⟨⟨0, 255, 0⟩, 1, 0, 50⟩⟩ 3)) := by
    simp only [scene_intersect, scene_scan, List.foldl_cons, List.foldl_nil, scene_step,
      ray_intersect_example, record_at]
    norm_num [INT_MAX]
  rw [h]
  intro heq
  have hm := congrArg (fun q => q.2.map (fun r => r.m.diffuse_color.x)) heq
  simp only [record_at, Option.map_some'] at hm
  norm_num at hm

end Witnesses4

/-! ## Theorems: the camera and the arguments of `normalize` -/

section Camera

lemma camera_y_eq (tan : ℝ → ℝ) (j : Nat) :
    camera_y tan j = (767 - 2 * (j : ℝ)) / 768 * tan (fov / 2) := by
  simp only [camera_y, height]
  push_cast
  ring

lemma camera_x_eq (tan : ℝ → ℝ) (i : Nat) :
    camera_x tan i = (2 * (i : ℝ) - 1023) / 768 * tan (fov / 2) := by
  simp only [camera_x, width, height]
  push_cast
  ring

end Camera

section NormalizeArgs

/-- A vector whose dot product with itself is positive is not the zero vector. -/
lemma ne_zero_of_dot_pos (v : Vec3 ℝ) (h : 0 < dotProduct v v) : v ≠ ⟨0, 0, 0⟩ := by
  intro hv
  rw [hv] at h
  simp [dotProduct] at h

/-- The un-normalized camera direction `(x, y, -1)` is never zero and `camera_ray` is a unit
vector. -/
lemma camera_ray_unit (tan : ℝ → ℝ) (i j : Nat) :
    (⟨camera_x tan i, camera_y tan j, -1⟩ : Vec3 ℝ) ≠ ⟨0, 0, 0⟩ ∧
    vecNorm Real.sqrt (camera_ray Real.sqrt tan i j) = 1 := by
  have hne : (⟨camera_x tan i, camera_y tan j, -1⟩ : Vec3 ℝ) ≠ ⟨0, 0, 0⟩ := by
    intro h
    have := congrArg Vec3.z h
    norm_num at this
  exact ⟨hne, normalize_norm _ hne⟩

/-- Every vector `hitMinusCenter` normalized during a scan with a unit direction over spheres
of positive radius is non-zero: it joins the centre to a point of the surface. -/
lemma scan_normalize_args_ne_zero (t0 : Nat) (origin dir : Vec3 ℝ)
    (hdir : vecNorm Real.sqrt dir = 1) (s : List (Sphere ℝ))
    (hrad : ∀ sp ∈ s, 0 < sp.radius) (st : ScanState ℝ) :
    ∀ v ∈ scan_normalize_args Real.sqrt t0 origin dir st s, v ≠ ⟨0, 0, 0⟩ := by
  induction s generalizing st with
  | nil =>
    intro v hv
    simp [scan_normalize_args] at hv
  | cons a t ih =>
    intro v hv
    simp only [scan_normalize_args, List.mem_append] at hv
    rcases hv with hv | hv
    · unfold step_normalize_arg at hv
      cases hray : ray_intersect Real.sqrt t0 origin dir a with
      | none =>
        rw [hray] at hv
        simp at hv
      | some d =>
        rw [hray] at hv
        simp only at hv
        split_ifs at hv
        · simp only [List.mem_singleton] at hv
          subst hv
          apply ne_zero_of_dot_pos
          rw [ray_hit_on_surface t0 origin dir a d (unit_dot hdir) hray]
          have := hrad a (List.mem_cons_self _ _)
          positivity
        · simp at hv
    · exact ih (fun sp hsp => hrad sp (List.mem_cons_of_mem _ hsp)) _ v hv

/-- A record returned by `scene_intersect` is the record of a sphere of the list at its
intersection distance. -/
lemma scene_record_of_sphere (t0 : Nat) (origin dir : Vec3 ℝ) (s : List (Sphere ℝ))
    (b : Bool) (h : HitRecord ℝ)
    (hq : scene_intersect Real.sqrt t0 origin dir s = (b, some h)) :
    ∃ S ∈ s, ∃ d, ray_intersect Real.sqrt t0 origin dir S = some d ∧
      h = record_at Real.sqrt origin dir S d := by
  rcases scene_intersect_cases t0 origin dir s with
    ⟨hfin, _⟩ | ⟨pre, S, post, d, hs, hray, _, _, _, hfin⟩
  · rw [hfin] at hq
    cases hq
  · rw [hfin] at hq
    simp only [Prod.mk.injEq, Option.some.injEq] at hq
    exact ⟨S, by simp [hs], d, hray, hq.2.symm⟩

/-- No light of `main` lies on the surface of a sphere of `main`. -/
lemma main_lights_off_surfaces :
    ∀ S ∈ (main_spheres : List (Sphere ℝ)), ∀ li ∈ (main_lights : List (Light ℝ)),
      dotProduct (arrSub li.position S.center) (arrSub li.position S.center)
        ≠ S.radius * S.radius := by
  intro S hS li hli
  simp only [main_spheres, main_lights, List.mem_cons, List.mem_singleton, List.not_mem_nil,
    or_false] at hS hli
  rcases hS with rfl | rfl | rfl <;> rcases hli with rfl | rfl <;>
    norm_num [smallGold, bigRed, farPink, left_light, top_light, dotProduct, arrSub]

lemma main_radii_pos : ∀ S ∈ (main_spheres : List (Sphere ℝ)), 0 < S.radius := by
  intro S hS
  simp only [main_spheres, List.mem_cons, List.mem_singleton, List.not_mem_nil,
    or_false] at hS
  rcases hS with rfl | rfl | rfl <;> norm_num [smallGold, bigRed, farPink]

/-- C13: for the scene of `main` and every pixel `(i, j)`, whatever the value of `tan`, every
vector handed to `normalize` while the pixel is computed is non-zero: the camera direction
`(x, y, -1)`, the vector `hit - center` of every sphere that updates the nearest hit, and the
vector `light.position - hit` of every light. -/
theorem C13_normalize_args_nonzero (tan : ℝ → ℝ) (t0 i j : Nat) :
    ∀ v ∈ pixel_normalize_args Real.sqrt tan t0 main_spheres main_lights i j,
      v ≠ ⟨0, 0, 0⟩ := by
  obtain ⟨hcam, hunit⟩ := camera_ray_unit tan i j
  have htake : List.take 3 (main_spheres : List (Sphere ℝ)) = main_spheres := rfl
  intro v hv
  simp only [pixel_normalize_args, cast_ray_normalize_args, List.mem_cons, List.mem_append,
    htake] at hv
  rcases hv with rfl | hv | hv
  · exact hcam
  · exact scan_normalize_args_ne_zero t0 _ _ hunit _ main_radii_pos _ v hv
  · rcases hq : scene_intersect Real.sqrt t0 ⟨0, 0, 0⟩ (camera_ray Real.sqrt tan i j)
        main_spheres with ⟨b, out⟩
    rw [hq] at hv
    cases b with
    | false => simp at hv
    | true =>
      cases out with
      | none => simp at hv
      | some h =>
        simp only [List.mem_map] at hv
        obtain ⟨li, hli, rfl⟩ := hv
        obtain ⟨S, hS, d, hray, rfl⟩ := scene_record_of_sphere t0 _ _ _ _ _ hq
        intro hzero
        have hsurf := ray_hit_on_surface t0 _ _ S d (unit_dot hunit) hray
        have hpos : li.position
            = arrAdd ⟨0, 0, 0⟩ (arrScalarMult (camera_ray Real.sqrt tan i j) d) := by
          simp only [record_at, arrSub, Vec3.mk.injEq] at hzero
          ext
          · linarith [hzero.1]
          · linarith [hzero.2.1]
          · linarith [hzero.2.2]
        rw [← hpos] at hsurf
        exact main_lights_off_surfaces S hS li hli hsurf

end NormalizeArgs

/-! ## Theorems: scene size and shadowing -/

section SceneSize

/-- For an array of exactly three spheres `cast_ray` queries the whole scene. -/
lemma cast_ray_three {F : Type} [LinearOrderedField F] [FloorRing F] (sqrtf : F → F)
    (powf : F → F → F) (t0 : Nat) (origin dir : Vec3 F) (s : List (Sphere F))
    (l : List (Light F)) (hlen : s.length = 3) :
    cast_ray sqrtf powf t0 origin dir s l =
      match scene_intersect sqrtf t0 origin dir s with
      | (false, _) => some ⟨5, 100, 250⟩
      | (true, some h) => shade sqrtf powf dir l h
      | (true, none) => none := by
  rw [cast_ray_eq sqrtf powf t0 origin dir s l (le_of_eq hlen.symm)]
  have htake : s.take 3 = s := by
    rw [← hlen]
    exact List.take_length s
  rw [htake]

/-- C11 (the code departs from the claim): in a scene of four spheres whose first three are
met beyond the cutoff (distance 1999) and whose fourth is met at distance 3, the scene query
over the four spheres reports a hit, yet `cast_ray` returns the background colour: line 93
passes the literal length 3 and the fourth sphere is never tested. -/
theorem C11_fourth_sphere_ignored :
    ray_intersect Real.sqrt 0 (⟨0, 0, 0⟩ : Vec3 ℝ) ⟨0, 0, -1⟩
        ⟨⟨0, 0, -5⟩, 2, ⟨⟨255, 0, 0⟩, 6 / 10, 3 / 10, 50⟩⟩ = some 3 ∧
    (scene_intersect Real.sqrt 0 (⟨0, 0, 0⟩ : Vec3 ℝ) ⟨0, 0, -1⟩
        [⟨⟨0, 0, -2000⟩, 1, ⟨⟨255, 0, 0⟩, 1, 0, 50⟩⟩,
          ⟨⟨0, 0, -2000⟩, 1, ⟨⟨0, 255, 0⟩, 1, 0, 50⟩⟩,
          ⟨⟨0, 0, -2000⟩, 1, ⟨⟨0, 0, 255⟩, 1, 0, 50⟩⟩,
          ⟨⟨0, 0, -5⟩, 2, ⟨⟨255, 0, 0⟩, 6 / 10, 3 / 10, 50⟩⟩]).1 = true ∧
    cast_ray Real.sqrt (fun v e => v ^ e) 0 (⟨0, 0, 0⟩ : Vec3 ℝ) ⟨0, 0, -1⟩
        [⟨⟨0, 0, -2000⟩, 1, ⟨⟨255, 0, 0⟩, 1, 0, 50⟩⟩,
          ⟨⟨0, 0, -2000⟩, 1, ⟨⟨0, 255, 0⟩, 1, 0, 50⟩⟩,
          ⟨⟨0, 0, -2000⟩, 1, ⟨⟨0, 0, 255⟩, 1, 0, 50⟩⟩,
          ⟨⟨0, 0, -5⟩, 2, ⟨⟨255, 0, 0⟩, 6 / 10, 3 / 10, 50⟩⟩]
        [⟨⟨0, 0, 0⟩, 1⟩]
      = some ⟨5, 100, 250⟩ := by
  refine ⟨ray_intersect_example 0 _, ?_, ?_⟩
  · rw [scene_flag_iff]
    exact ⟨⟨⟨0, 0, -5⟩, 2, ⟨⟨255, 0, 0⟩, 6 / 10, 3 / 10, 50⟩⟩, by simp, 3,
      ray_intersect_example 0 _, by norm_num⟩
  · rw [cast_ray_eq _ _ _ _ _ _ _ (by simp)]
    have hmiss := scene_intersect_far_three_example 0
    have htake : List.take 3
        ([⟨⟨0, 0, -2000⟩, 1, ⟨⟨255, 0, 0⟩, 1, 0, 50⟩⟩,
          ⟨⟨0, 0, -2000⟩, 1, ⟨⟨0, 255, 0⟩, 1, 0, 50⟩⟩,
          ⟨⟨0, 0, -2000⟩, 1, ⟨⟨0, 0, 255⟩, 1, 0, 50⟩⟩,
          ⟨⟨0, 0, -5⟩, 2, ⟨⟨255, 0, 0⟩, 6 / 10, 3 / 10, 50⟩⟩] : List (Sphere ℝ))
        = List.take 3 [⟨⟨0, 0, -2000⟩, 1, ⟨⟨255, 0, 0⟩, 1, 0, 50⟩⟩,
          ⟨⟨0, 0, -2000⟩, 1, ⟨⟨0, 255, 0⟩, 1, 0, 50⟩⟩,
          ⟨⟨0, 0, -2000⟩, 1, ⟨⟨0, 0, 255⟩, 1, 0, 50⟩⟩] := rfl
    rw [htake]
    rcases hsc : scene_intersect Real.sqrt 0 (⟨0, 0, 0⟩ : Vec3 ℝ) ⟨0, 0, -1⟩
        (List.take 3 [⟨⟨0, 0, -2000⟩, 1, ⟨⟨255, 0, 0⟩, 1, 0, 50⟩⟩,
          ⟨⟨0, 0, -2000⟩, 1, ⟨⟨0, 255, 0⟩, 1, 0, 50⟩⟩,
          ⟨⟨0, 0, -2000⟩, 1, ⟨⟨0, 0, 255⟩, 1, 0, 50⟩⟩]) with ⟨b, out⟩
    rw [hsc] at hmiss
    simp only at hmiss
    subst hmiss
    rfl

/-- An array of a single sphere, the end-to-end scenario of the specification, is read past
its end by line 93: the model has no result for it. -/
lemma cast_ray_single_sphere_undefined (t0 : Nat) (origin dir : Vec3 ℝ) (sp : Sphere ℝ)
    (l : List (Light ℝ)) :
    cast_ray Real.sqrt (fun v e => v ^ e) t0 origin dir [sp] l = none := by
  simp [cast_ray]

/-- C12: for every ray and light list and any two sphere arrays (each holding the three spheres
line 93 reads) for which the scene query of `cast_ray` returns the same flag and, on a hit,
the same hit point, normal and material, `cast_ray` returns the same colour: no other sphere
is consulted when the lights are summed. -/
theorem C12_no_shadowing (powf : ℝ → ℝ → ℝ) (t0 : Nat) (origin dir : Vec3 ℝ)
    (s1 s2 : List (Sphere ℝ)) (l : List (Light ℝ))
    (hlen1 : 3 ≤ s1.length) (hlen2 : 3 ≤ s2.length)
    (hflag : (scene_intersect Real.sqrt t0 origin dir (s1.take 3)).1
      = (scene_intersect Real.sqrt t0 origin dir (s2.take 3)).1)
    (hrec : (scene_intersect Real.sqrt t0 origin dir (s1.take 3)).1 = true →
      (scene_intersect Real.sqrt t0 origin dir (s1.take 3)).2
        = (scene_intersect Real.sqrt t0 origin dir (s2.take 3)).2) :
    cast_ray Real.sqrt powf t0 origin dir s1 l = cast_ray Real.sqrt powf t0 origin dir s2 l := by
  rw [cast_ray_eq Real.sqrt powf t0 origin dir s1 l hlen1,
    cast_ray_eq Real.sqrt powf t0 origin dir s2 l hlen2]
  rcases hq1 : scene_intersect Real.sqrt t0 origin dir (s1.take 3) with ⟨b1, out1⟩
  rcases hq2 : scene_intersect Real.sqrt t0 origin dir (s2.take 3) with ⟨b2, out2⟩
  rw [hq1, hq2] at hflag hrec
  simp only at hflag hrec
  subst hflag
  cases b1 with
  | false => rfl
  | true =>
    rw [hrec rfl]

end SceneSize

section Witnesses5

/-- The unit sphere centred at `(0,10,-3/2)`, half way between the point `(0,0,-3)` and a light
at `(0,20,0)`, is not met by the ray from the origin down the negative z axis. -/
lemma ray_intersect_occluder_example (t0 : Nat) (m : Material ℝ) :
    ray_intersect Real.sqrt t0 ⟨0, 0, 0⟩ ⟨0, 0, -1⟩ ⟨⟨0, 10, -3 / 2⟩, 1, m⟩ = none := by
  rw [ray_intersect_eq]
  norm_num [dotProduct, arrSub]

lemma scene_intersect_clear_example (t0 : Nat) :
    scene_intersect Real.sqrt t0 (⟨0, 0, 0⟩ : Vec3 ℝ) ⟨0, 0, -1⟩
        (List.take 3 [⟨⟨0, 0, -5⟩, 2, ⟨⟨255, 0, 0⟩, 6 / 10, 3 / 10, 50⟩⟩,
          ⟨⟨0, 0, -2000⟩, 1, ⟨⟨0, 255, 0⟩, 1, 0, 50⟩⟩,
          ⟨⟨0, 0, -2000⟩, 1, ⟨⟨0, 0, 255⟩, 1, 0, 50⟩⟩])
      = (true, some ⟨⟨0, 0, -3⟩, ⟨0, 0, 1⟩, ⟨⟨255, 0, 0⟩, 6 / 10, 3 / 10, 50⟩⟩) := by
  simp only [List.take, scene_intersect, scene_scan, List.foldl_cons, List.foldl_nil,
    scene_step, ray_intersect_example, ray_intersect_cutoff_example, normalize, vecNorm,
    dotProduct, arrSub, arrAdd, arrScalarMult]
  norm_num [INT_MAX, sqrt_four]

lemma scene_intersect_occluded_example (t0 : Nat) :
    scene_intersect Real.sqrt t0 (⟨0, 0, 0⟩ : Vec3 ℝ) ⟨0, 0, -1⟩
        (List.take 3 [⟨⟨0, 0, -5⟩, 2, ⟨⟨255, 0, 0⟩, 6 / 10, 3 / 10, 50⟩⟩,
          ⟨⟨0, 10, -3 / 2⟩, 1, ⟨⟨0, 255, 0⟩, 1, 0, 50⟩⟩,
          ⟨⟨0, 0, -2000⟩, 1, ⟨⟨0, 0, 255⟩, 1, 0, 50⟩⟩])
      = (true, some ⟨⟨0, 0, -3⟩, ⟨0, 0, 1⟩, ⟨⟨255, 0, 0⟩, 6 / 10, 3 / 10, 50⟩⟩) := by
  simp only [List.take, scene_intersect, scene_scan, List.foldl_cons, List.foldl_nil,
    scene_step, ray_intersect_example, ray_intersect_cutoff_example,
    ray_intersect_occluder_example, normalize, vecNorm, dotProduct, arrSub, arrAdd,
    arrScalarMult]
  norm_num [INT_MAX, sqrt_four]

/-- Witness for C12: the second sphere of the array is moved from far behind the scene to the
middle of the segment joining the hit point `(0,0,-3)` to the light at `(0,20,0)`; the scene
query is unchanged and so is the colour. -/
theorem C12_no_shadowing_witness :
    (scene_intersect Real.sqrt 0 (⟨0, 0, 0⟩ : Vec3 ℝ) ⟨0, 0, -1⟩
        (List.take 3 [⟨⟨0, 0, -5⟩, 2, ⟨⟨255, 0, 0⟩, 6 / 10, 3 / 10, 50⟩⟩,
          ⟨⟨0, 0, -2000⟩, 1, ⟨⟨0, 255, 0⟩, 1, 0, 50⟩⟩,
          ⟨⟨0, 0, -2000⟩, 1, ⟨⟨0, 0, 255⟩, 1, 0, 50⟩⟩])
      = (true, some ⟨⟨0, 0, -3⟩, ⟨0, 0, 1⟩, ⟨⟨255, 0, 0⟩, 6 / 10, 3 / 10, 50⟩⟩) ∧
      scene_intersect Real.sqrt 0 (⟨0, 0, 0⟩ : Vec3 ℝ) ⟨0, 0, -1⟩
        (List.take 3 [⟨⟨0, 0, -5⟩, 2, ⟨⟨255, 0, 0⟩, 6 / 10, 3 / 10, 50⟩⟩,
          ⟨⟨0, 10, -3 / 2⟩, 1, ⟨⟨0, 255, 0⟩, 1, 0, 50⟩⟩,
          ⟨⟨0, 0, -2000⟩, 1, ⟨⟨0, 0, 255⟩, 1, 0, 50⟩⟩])
      = (true, some ⟨⟨0, 0, -3⟩, ⟨0, 0, 1⟩, ⟨⟨255, 0, 0⟩, 6 / 10, 3 / 10, 50⟩⟩) ∧
      (⟨0, 10, -3 / 2⟩ : Vec3 ℝ)
        = arrAdd ⟨0, 0, -3⟩ (arrScalarMult (arrSub ⟨0, 20, 0⟩ ⟨0, 0, -3⟩) (1 / 2))) ∧
    cast_ray Real.sqrt (fun v e => v ^ e) 0 (⟨0, 0, 0⟩ : Vec3 ℝ) ⟨0, 0, -1⟩
        [⟨⟨0, 0, -5⟩, 2, ⟨⟨255, 0, 0⟩, 6 / 10, 3 / 10, 50⟩⟩,
          ⟨⟨0, 0, -2000⟩, 1, ⟨⟨0, 255, 0⟩, 1, 0, 50⟩⟩,
          ⟨⟨0, 0, -2000⟩, 1, ⟨⟨0, 0, 255⟩, 1, 0, 50⟩⟩]
        [⟨⟨0, 20, 0⟩, 1⟩]
      = cast_ray Real.sqrt (fun v e => v ^ e) 0 (⟨0, 0, 0⟩ : Vec3 ℝ) ⟨0, 0, -1⟩
        [⟨⟨0, 0, -5⟩, 2, ⟨⟨255, 0, 0⟩, 6 / 10, 3 / 10, 50⟩⟩,
          ⟨⟨0, 10, -3 / 2⟩, 1, ⟨⟨0, 255, 0⟩, 1, 0, 50⟩⟩,
          ⟨⟨0, 0, -2000⟩, 1, ⟨⟨0, 0, 255⟩, 1, 0, 50⟩⟩]
        [⟨⟨0, 20, 0⟩, 1⟩] := by
  have hmid : (⟨0, 10, -3 / 2⟩ : Vec3 ℝ)
      = arrAdd ⟨0, 0, -3⟩ (arrScalarMult (arrSub ⟨0, 20, 0⟩ ⟨0, 0, -3⟩) (1 / 2)) := by
    simp only [arrAdd, arrScalarMult, arrSub]
    ext <;> norm_num
  refine ⟨⟨scene_intersect_clear_example 0, scene_intersect_occluded_example 0, hmid⟩, ?_⟩
  exact C12_no_shadowing (fun v e => v ^ e) 0 ⟨0, 0, 0⟩ ⟨0, 0, -1⟩ _ _ [⟨⟨0, 20, 0⟩, 1⟩]
    (by simp) (by simp)
    (by rw [scene_intersect_clear_example, scene_intersect_occluded_example])
    (by
      intro _
      rw [scene_intersect_clear_example, scene_intersect_occluded_example])

end Witnesses5

/-! ## Theorems: `render` -/

section Render

/-- The nested loops over `h` rows and `w` columns visit pixel (column `i`, row `j`) at step
`j * w + i`, and make `h * w` steps. -/
lemma loop_order (w : Nat) (h : Nat) :
    ((List.range h).flatMap (fun j => (List.range w).map (fun i => (i, j)))).length = h * w ∧
    ∀ i j, i < w → j < h →
      ((List.range h).flatMap (fun j => (List.range w).map (fun i => (i, j))))[j * w + i]?
        = some (i, j) := by
  induction h with
  | zero => exact ⟨by simp, fun i j _ hj => absurd hj (Nat.not_lt_zero j)⟩
  | succ h ih =>
    obtain ⟨hlen, hidx⟩ := ih
    rw [List.range_succ, List.flatMap_append]
    have hlast : List.flatMap [h] (fun j => (List.range w).map (fun i => (i, j)))
        = (List.range w).map (fun i => (i, h)) := by
      simp [List.flatMap]
    rw [hlast]
    constructor
    · rw [List.length_append, hlen, List.length_map, List.length_range, Nat.succ_mul]
    · intro i j hi hj
      rcases Nat.lt_succ_iff_lt_or_eq.mp hj with hlt | rfl
      · have hbound : j * w + i < h * w := by
          calc j * w + i < j * w + w := Nat.add_lt_add_left hi _
            _ = (j + 1) * w := (Nat.succ_mul j w).symm
            _ ≤ h * w := Nat.mul_le_mul_right w hlt
        rw [List.getElem?_append_left (by rw [hlen]; exact hbound)]
        exact hidx i j hi hlt
      · rw [List.getElem?_append_right (by rw [hlen]; exact Nat.le_add_right _ _), hlen,
          Nat.add_sub_cancel_left]
        simp [List.getElem?_map, List.getElem?_range hi]

/-- When every visited pixel is defined, `write_pixels` returns three bytes per pixel, those of
the pixel visited at step `k` at offsets `3k`, `3k+1`, `3k+2`. -/
lemma write_pixels_spec (f : Nat → Nat → Option Color) (ps : List (Nat × Nat))
    (hdef : ∀ p ∈ ps, (f p.1 p.2).isSome = true) :
    ∃ body, write_pixels f ps = some body ∧ body.length = 3 * ps.length ∧
      ∀ k p, ps[k]? = some p → ∃ c, f p.1 p.2 = some c ∧
        body[3 * k]? = some c.r ∧ body[3 * k + 1]? = some c.g ∧
        body[3 * k + 2]? = some c.b := by
  induction ps with
  | nil =>
    refine ⟨[], rfl, rfl, ?_⟩
    intro k p hk
    simp at hk
  | cons q t ih =>
    obtain ⟨body, hbody, hlen, hidx⟩ := ih (fun p hp => hdef p (List.mem_cons_of_mem _ hp))
    obtain ⟨c, hc⟩ := Option.isSome_iff_exists.mp (hdef q (List.mem_cons_self _ _))
    refine ⟨c.r :: c.g :: c.b :: body, ?_, ?_, ?_⟩
    · simp only [write_pixels, hc, hbody, Option.map_some']
    · simp only [List.length_cons, hlen]
      ring
    · intro k p hk
      cases k with
      | zero =>
        simp only [List.getElem?_cons_zero, Option.some.injEq] at hk
        subst hk
        exact ⟨c, hc, by simp, by simp, by simp⟩
      | succ k =>
        simp only [List.getElem?_cons_succ] at hk
        obtain ⟨c2, hc2, h0, h1, h2⟩ := hidx k p hk
        refine ⟨c2, hc2, ?_, ?_, ?_⟩
        · rw [Nat.mul_succ]
          simpa using h0
        · rw [Nat.mul_succ]
          simpa using h1
        · rw [Nat.mul_succ]
          simpa using h2

end Render

section Render2

lemma ppm_header_eq :
    ppm_header = List.map Char.toNat (String.toList "P6\n1024 768\n255\n") := by
  decide

lemma mem_pixel_order (p : Nat × Nat) (hp : p ∈ pixel_order) : p.1 < 1024 ∧ p.2 < 768 := by
  simp only [pixel_order, width, height, List.mem_flatMap, List.mem_map, List.mem_range] at hp
  obtain ⟨j, hj, i, hi, rfl⟩ := hp
  exact ⟨hi, hj⟩

/-- C15: when every pixel of the frame is defined, `render` produces the header
`P6\n1024 768\n255\n` followed by a body of exactly `1024 * 768` triples (2359296 bytes) in
row-major order: the three bytes at index `j * 1024 + i` are the colour `cast_ray` computes
from the origin `(0,0,0)` along the camera ray of pixel (column `i`, row `j`). -/
theorem C15_render_byte_stream (powf : ℝ → ℝ → ℝ) (tan : ℝ → ℝ) (t0 : Nat)
    (s : List (Sphere ℝ)) (l : List (Light ℝ))
    (hdef : ∀ i j, i < 1024 → j < 768 →
      (cast_ray Real.sqrt powf t0 ⟨0, 0, 0⟩ (camera_ray Real.sqrt tan i j) s l).isSome = true) :
    ∃ body, render Real.sqrt powf tan t0 s l
        = some (List.map Char.toNat (String.toList "P6\n1024 768\n255\n") ++ body) ∧
      body.length = 2359296 ∧
      ∀ i j, i < 1024 → j < 768 →
        ∃ c, cast_ray Real.sqrt powf t0 ⟨0, 0, 0⟩ (camera_ray Real.sqrt tan i j) s l = some c ∧
          body[3 * (j * 1024 + i)]? = some c.r ∧
          body[3 * (j * 1024 + i) + 1]? = some c.g ∧
          body[3 * (j * 1024 + i) + 2]? = some c.b := by
  obtain ⟨hlen, hidx⟩ := loop_order 1024 768
  have hdef2 : ∀ p ∈ pixel_order, (pixel Real.sqrt powf tan t0 s l p.1 p.2).isSome = true := by
    intro p hp
    obtain ⟨hi, hj⟩ := mem_pixel_order p hp
    exact hdef p.1 p.2 hi hj
  obtain ⟨body, hbody, hblen, hbidx⟩ :=
    write_pixels_spec (pixel Real.sqrt powf tan t0 s l) pixel_order hdef2
  refine ⟨body, ?_, ?_, ?_⟩
  · simp only [render, hbody, Option.map_some', ppm_header_eq]
  · rw [hblen]
    have : pixel_order.length = 768 * 1024 := hlen
    rw [this]
  · intro i j hi hj
    exact hbidx (j * 1024 + i) (i, j) (hidx i j hi hj)

/-- When the scene query reports a hit the outputs have been written. -/
lemma scene_hit_written (t0 : Nat) (origin dir : Vec3 ℝ) (s : List (Sphere ℝ))
    (out : Option (HitRecord ℝ))
    (hq : scene_intersect Real.sqrt t0 origin dir s = (true, out)) :
    ∃ h, out = some h := by
  rcases scene_intersect_cases t0 origin dir s with
    ⟨hfin, _⟩ | ⟨_, S, _, d, _, _, _, _, _, hfin⟩
  · rw [hfin] at hq
    cases hq
  · rw [hfin] at hq
    simp only [Prod.mk.injEq] at hq
    exact ⟨_, hq.2.symm⟩

/-- With at least three spheres, non-negative colour and albedo for the three spheres read and
non-negative light intensities, `cast_ray` is defined. -/
lemma cast_ray_defined (t0 : Nat) (origin dir : Vec3 ℝ) (s : List (Sphere ℝ))
    (l : List (Light ℝ)) (hlen : 3 ≤ s.length)
    (hmat : ∀ sp ∈ s.take 3, 0 ≤ sp.material.diffuse_color.x ∧
      0 ≤ sp.material.diffuse_color.y ∧ 0 ≤ sp.material.diffuse_color.z ∧
      0 ≤ sp.material.albedo0 ∧ 0 ≤ sp.material.albedo1)
    (hint : ∀ li ∈ l, 0 ≤ li.intensity) :
    (cast_ray Real.sqrt (fun v e => v ^ e) t0 origin dir s l).isSome = true := by
  rw [cast_ray_eq Real.sqrt _ t0 origin dir s l hlen]
  rcases hq : scene_intersect Real.sqrt t0 origin dir (s.take 3) with ⟨b, out⟩
  cases b with
  | false => rfl
  | true =>
    obtain ⟨h, rfl⟩ := scene_hit_written t0 origin dir _ out hq
    obtain ⟨S, hS, d, _, rfl⟩ := scene_record_of_sphere t0 origin dir _ _ _ hq
    obtain ⟨hx, hy, hz, ha0, ha1⟩ := hmat S hS
    have hsh := (shade_eq dir l (record_at Real.sqrt origin dir S d) hx hy hz ha0 ha1 hint).1
    simp only [hsh, Option.isSome_some]

end Render2

section Witnesses6

/-- Every pixel of the scene of `main` is defined. -/
lemma main_pixels_defined (tan : ℝ → ℝ) (t0 i j : Nat) :
    (cast_ray Real.sqrt (fun v e => v ^ e) t0 ⟨0, 0, 0⟩ (camera_ray Real.sqrt tan i j)
      main_spheres main_lights).isSome = true := by
  apply cast_ray_defined
  · simp [main_spheres]
  · intro sp hsp
    have htake : List.take 3 (main_spheres : List (Sphere ℝ)) = main_spheres := rfl
    rw [htake] at hsp
    simp only [main_spheres, List.mem_cons, List.mem_singleton, List.not_mem_nil,
      or_false] at hsp
    rcases hsp with rfl | rfl | rfl <;>
      norm_num [smallGold, bigRed, farPink, gold, red, pink]
  · intro li hli
    simp only [main_lights, List.mem_cons, List.mem_singleton, List.not_mem_nil,
      or_false] at hli
    rcases hli with rfl | rfl <;> norm_num [left_light, top_light]

/-- Witness for C15: the scene of `main`, with the real tangent and power functions. -/
theorem C15_render_byte_stream_witness :
    (∀ i j, i < 1024 → j < 768 →
      (cast_ray Real.sqrt (fun v e => v ^ e) 0 ⟨0, 0, 0⟩ (camera_ray Real.sqrt Real.tan i j)
        main_spheres main_lights).isSome = true) ∧
    ∃ body, render Real.sqrt (fun v e => v ^ e) Real.tan 0 main_spheres main_lights
        = some (List.map Char.toNat (String.toList "P6\n1024 768\n255\n") ++ body) ∧
      body.length = 2359296 ∧
      ∀ i j, i < 1024 → j < 768 →
        ∃ c, cast_ray Real.sqrt (fun v e => v ^ e) 0 ⟨0, 0, 0⟩
            (camera_ray Real.sqrt Real.tan i j) main_spheres main_lights = some c ∧
          body[3 * (j * 1024 + i)]? = some c.r ∧
          body[3 * (j * 1024 + i) + 1]? = some c.g ∧
          body[3 * (j * 1024 + i) + 2]? = some c.b :=
  ⟨fun i j _ _ => main_pixels_defined Real.tan 0 i j,
    C15_render_byte_stream (fun v e => v ^ e) Real.tan 0 main_spheres main_lights
      (fun i j _ _ => main_pixels_defined Real.tan 0 i j)⟩

end Witnesses6

/-! ## A pixel of the scene of `main` that meets a sphere -/

section MainPixel

/-- With `tan(fov/2) = 1`, the camera ray of pixel (column 480, row 432) meets the sphere
`bigRed` of `main` below the cutoff. -/
lemma main_pixel_meets_bigRed (t0 : Nat) :
    ∃ e, ray_intersect Real.sqrt t0 ⟨0, 0, 0⟩
        (camera_ray Real.sqrt (fun _ : ℝ => (1 : ℝ)) 480 432) bigRed = some e ∧ e < 1000 := by
  have hx : camera_x (fun _ : ℝ => (1 : ℝ)) 480 = -21 / 256 := by
    rw [camera_x_eq]
    norm_num
  have hy : camera_y (fun _ : ℝ => (1 : ℝ)) 432 = -97 / 768 := by
    rw [camera_y_eq]
    norm_num
  have hvv : dotProduct (⟨-21 / 256, -97 / 768, -1⟩ : Vec3 ℝ) ⟨-21 / 256, -97 / 768, -1⟩
      = 301601 / 294912 := by
    norm_num [dotProduct]
  have hn0 : 0 ≤ vecNorm Real.sqrt (⟨-21 / 256, -97 / 768, -1⟩ : Vec3 ℝ) := Real.sqrt_nonneg _
  have hnn : vecNorm Real.sqrt (⟨-21 / 256, -97 / 768, -1⟩ : Vec3 ℝ)
      * vecNorm Real.sqrt (⟨-21 / 256, -97 / 768, -1⟩ : Vec3 ℝ) = 301601 / 294912 := by
    unfold vecNorm
    rw [hvv]
    exact Real.mul_self_sqrt (by norm_num)
  simp only [camera_ray, camera_dir, hx, hy, normalize]
  generalize vecNorm Real.sqrt (⟨-21 / 256, -97 / 768, -1⟩ : Vec3 ℝ) = n at hn0 hnn
  have hnpos : 0 < n := by
    rcases lt_or_eq_of_le hn0 with h | h
    · exact h
    · rw [← h] at hnn
      norm_num at hnn
  have hn1 : n ≤ 102 / 100 := by nlinarith
  have htca : dotProduct (arrSub (bigRed : Sphere ℝ).center ⟨0, 0, 0⟩)
      ⟨-21 / 256 / n, -97 / 768 / n, -1 / n⟩ = 6283 / 512 / n := by
    simp only [dotProduct, arrSub, bigRed]
    field_simp
    ring
  have hLL : dotProduct (arrSub (bigRed : Sphere ℝ).center ⟨0, 0, 0⟩)
      (arrSub (bigRed : Sphere ℝ).center ⟨0, 0, 0⟩) = 589 / 4 := by
    norm_num [dotProduct, arrSub, bigRed]
  have hr : (bigRed : Sphere ℝ).radius = 3 := rfl
  have htsq : 6283 / 512 / n * (6283 / 512 / n) = 355284801 / 2412808 := by
    have : 6283 / 512 / n * (6283 / 512 / n) = (6283 / 512) ^ 2 / (n * n) := by
      field_simp
      ring
    rw [this, hnn]
    norm_num
  have htge : 12 ≤ 6283 / 512 / n := by
    rw [le_div_iff₀ hnpos]
    nlinarith
  have htle : 6283 / 512 / n ≤ 13 := by
    rw [div_le_iff₀ hnpos]
    nlinarith
  rw [ray_intersect_eq, htca, hLL, hr, htsq]
  have hthc0 := Real.sqrt_nonneg ((3 : ℝ) * 3 - (589 / 4 - 355284801 / 2412808))
  have hthc3 : Real.sqrt ((3 : ℝ) * 3 - (589 / 4 - 355284801 / 2412808)) ≤ 3 := by
    rw [Real.sqrt_le_left (by norm_num)]
    norm_num
  rw [if_neg (by norm_num), if_neg (by linarith)]
  exact ⟨_, rfl, by linarith⟩

/-- At that pixel the scene query of `main` reports a hit, and every vector
`light.position - hit` is among the vectors handed to `normalize`. -/
lemma main_pixel_hit_args (t0 : Nat) :
    ∃ h, scene_intersect Real.sqrt t0 ⟨0, 0, 0⟩
        (camera_ray Real.sqrt (fun _ : ℝ => (1 : ℝ)) 480 432) main_spheres = (true, some h) ∧
      ∀ li ∈ (main_lights : List (Light ℝ)), arrSub li.position h.hit ∈
        pixel_normalize_args Real.sqrt (fun _ : ℝ => (1 : ℝ)) t0 main_spheres main_lights
          480 432 := by
  obtain ⟨e, he, hlt⟩ := main_pixel_meets_bigRed t0
  have hflag : (scene_intersect Real.sqrt t0 ⟨0, 0, 0⟩
      (camera_ray Real.sqrt (fun _ : ℝ => (1 : ℝ)) 480 432) main_spheres).1 = true := by
    rw [scene_flag_iff]
    exact ⟨bigRed, by simp [main_spheres], e, he, hlt⟩
  rcases hq : scene_intersect Real.sqrt t0 ⟨0, 0, 0⟩
      (camera_ray Real.sqrt (fun _ : ℝ => (1 : ℝ)) 480 432) main_spheres with ⟨b, out⟩
  rw [hq] at hflag
  simp only at hflag
  subst hflag
  obtain ⟨h, rfl⟩ := scene_hit_written t0 _ _ _ out hq
  refine ⟨h, rfl, ?_⟩
  intro li hli
  have htake : List.take 3 (main_spheres : List (Sphere ℝ)) = main_spheres := rfl
  simp only [pixel_normalize_args, cast_ray_normalize_args, htake, hq, List.mem_cons,
    List.mem_append, List.mem_map]
  exact Or.inr (Or.inr ⟨li, hli, rfl⟩)

end MainPixel

section Witnesses7

/-- Witness for C13: at pixel (column 480, row 432), with `tan(fov/2) = 1`, the scene of `main`
is hit and both vectors `light.position - hit` handed to `normalize` are non-zero. -/
theorem C13_normalize_args_nonzero_witness :
    ∃ h, scene_intersect Real.sqrt 0 ⟨0, 0, 0⟩
        (camera_ray Real.sqrt (fun _ : ℝ => (1 : ℝ)) 480 432) main_spheres = (true, some h) ∧
      ∀ li ∈ (main_lights : List (Light ℝ)), arrSub li.position h.hit ≠ ⟨0, 0, 0⟩ := by
  obtain ⟨h, hq, hmem⟩ := main_pixel_hit_args 0
  exact ⟨h, hq, fun li hli =>
    C13_normalize_args_nonzero (fun _ : ℝ => (1 : ℝ)) 0 480 432 _ (hmem li hli)⟩

end Witnesses7

/-! ## Theorems: the code in binary32 arithmetic -/

section Binary32

/-- In binary32 the sentinel `INT_MAX` of line 62 is `2^31`, and `1.275` is
`10695475 / 2^23`. -/
lemma f32_constants :
    ((INT_MAX : ℕ) : F32) = ⟨2147483648⟩ ∧ (1.275 : F32) = ⟨10695475 / 8388608⟩ ∧
    (1e-10 : F32) = ⟨14411519 / 144115188075855872⟩ := by
  decide!

/-- C2 as stated fails in `float` arithmetic: the unit sphere centred at
`(1 + 2^-23, 0, -1000)` is missed by the ray from the origin down the negative z axis, whose
points all stay at distance at least `1 + 2^-23` from the centre, yet `ray_intersect` returns
success with distance 1000: `dot(L,L)` rounds to 1000001, so `d2 = 1` is not above
`radius^2`. -/
theorem C2_grazing_miss_counterexample :
    ((0 : ℝ) < 1 ∧ vecNorm Real.sqrt (⟨0, 0, -1⟩ : Vec3 ℝ) = 1 ∧
      (1 : ℝ) < vecNorm Real.sqrt
        (arrSub (⟨0, 0, 0⟩ : Vec3 ℝ) ⟨8388609 / 8388608, 0, -1000⟩) ∧
      (∀ t : ℝ, 0 ≤ t → (1 : ℝ) < vecNorm Real.sqrt
        (arrSub (arrAdd (⟨0, 0, 0⟩ : Vec3 ℝ) (arrScalarMult ⟨0, 0, -1⟩ t))
          ⟨8388609 / 8388608, 0, -1000⟩))) ∧
    ray_intersect f32_sqrt 0 (⟨0, 0, 0⟩ : Vec3 F32) ⟨0, 0, -1⟩
      ⟨⟨⟨8388609 / 8388608⟩, 0, -1000⟩, 1, ⟨⟨255, 0, 0⟩, 1, 0, 50⟩⟩ = some 1000 := by
  refine ⟨⟨one_pos, vecNorm_down, ?_, ?_⟩, by decide!⟩
  · rw [lt_vecNorm_iff _ zero_le_one]
    norm_num [dotProduct, arrSub]
  · intro t _
    rw [lt_vecNorm_iff _ zero_le_one]
    simp only [dotProduct, arrSub, arrAdd, arrScalarMult]
    nlinarith [mul_self_nonneg (1000 - t)]

/-- C4 as stated fails in `float` arithmetic: for the same sphere and ray `ray_intersect`
returns success with distance 1000, but the point `origin + 1000 * dir = (0, 0, -1000)` is at
distance `1 + 2^-23` from the centre, not on the surface of the unit sphere. -/
theorem C4_off_surface_counterexample :
    ((0 : ℝ) < 1 ∧ vecNorm Real.sqrt (⟨0, 0, -1⟩ : Vec3 ℝ) = 1) ∧
    ray_intersect f32_sqrt 0 (⟨0, 0, 0⟩ : Vec3 F32) ⟨0, 0, -1⟩
      ⟨⟨⟨8388609 / 8388608⟩, 0, -1000⟩, 1, ⟨⟨255, 0, 0⟩, 1, 0, 50⟩⟩ = some 1000 ∧
    (1000 : F32) = ⟨1000⟩ ∧
    vecNorm Real.sqrt (arrSub (arrAdd (⟨0, 0, 0⟩ : Vec3 ℝ) (arrScalarMult ⟨0, 0, -1⟩ 1000))
      ⟨8388609 / 8388608, 0, -1000⟩) = 8388609 / 8388608 ∧
    vecNorm Real.sqrt (arrSub (arrAdd (⟨0, 0, 0⟩ : Vec3 ℝ) (arrScalarMult ⟨0, 0, -1⟩ 1000))
      ⟨8388609 / 8388608, 0, -1000⟩) ≠ 1 := by
  have hn : vecNorm Real.sqrt (arrSub (arrAdd (⟨0, 0, 0⟩ : Vec3 ℝ)
      (arrScalarMult ⟨0, 0, -1⟩ 1000)) ⟨8388609 / 8388608, 0, -1000⟩)
      = 8388609 / 8388608 := by
    rw [vecNorm_eq_iff _ (by norm_num)]
    norm_num [dotProduct, arrSub, arrAdd, arrScalarMult]
  refine ⟨⟨one_pos, vecNorm_down⟩, by decide!, by decide!, hn, ?_⟩
  rw [hn]
  norm_num

/-- C8 as stated fails in `float` arithmetic: for a sphere of radius `1e-10` (positive) centred
at `(0, 0, -100)` and the unit direction `(0, 0, -1)`, `100 - thc` rounds to 100; the scene
query reports a hit whose hit point is the centre itself, so `hit - center` is the zero vector
(and the vector handed to `normalize` at line 76 is zero). -/
theorem C8_hit_at_center_counterexample :
    ((0 : ℚ) < (1e-10 : F32).val ∧ vecNorm Real.sqrt (⟨0, 0, -1⟩ : Vec3 ℝ) = 1) ∧
    (scene_intersect f32_sqrt 0 (⟨0, 0, 0⟩ : Vec3 F32) ⟨0, 0, -1⟩
      [⟨⟨0, 0, -100⟩, 1e-10, ⟨⟨255, 0, 0⟩, 1, 0, 50⟩⟩]).1 = true ∧
    (scene_intersect f32_sqrt 0 (⟨0, 0, 0⟩ : Vec3 F32) ⟨0, 0, -1⟩
      [⟨⟨0, 0, -100⟩, 1e-10, ⟨⟨255, 0, 0⟩, 1, 0, 50⟩⟩]).2.map (fun h => h.hit)
      = some ⟨0, 0, -100⟩ ∧
    (scene_intersect f32_sqrt 0 (⟨0, 0, 0⟩ : Vec3 F32) ⟨0, 0, -1⟩
      [⟨⟨0, 0, -100⟩, 1e-10, ⟨⟨255, 0, 0⟩, 1, 0, 50⟩⟩]).2.map
        (fun h => arrSub h.hit ⟨0, 0, -100⟩)
      = some ⟨⟨0⟩, ⟨0⟩, ⟨0⟩⟩ ∧
    scan_normalize_args f32_sqrt 0 (⟨0, 0, 0⟩ : Vec3 F32) ⟨0, 0, -1⟩
        ⟨((INT_MAX : ℕ) : F32), none⟩ [⟨⟨0, 0, -100⟩, 1e-10, ⟨⟨255, 0, 0⟩, 1, 0, 50⟩⟩]
      = [⟨⟨0⟩, ⟨0⟩, ⟨0⟩⟩] := by
  refine ⟨⟨by decide!, vecNorm_down⟩, by decide!, by decide!, by decide!, by decide!⟩

end Binary32

section Binary32Shading

/-- The factor `k` of the specification, in exact arithmetic, for one light of intensity
`10695475 / 2^23` at the origin seen from the hit point `(0,0,-3)` with normal `(0,0,1)`:
`k` is that intensity. -/
lemma spec_k_rounding_example :
    spec_k Real.sqrt (fun v e => v ^ e) (⟨0, 0, -1⟩ : Vec3 ℝ)
      [⟨⟨0, 0, 0⟩, 10695475 / 8388608⟩]
      ⟨⟨0, 0, -3⟩, ⟨0, 0, 1⟩, ⟨⟨200, 0, 0⟩, 1, 0, 50⟩⟩ = 10695475 / 8388608 := by
  simp only [spec_k, spec_diffuse, spec_specular, spec_light_dir, normalize, vecNorm,
    dotProduct, arrSub, reflect, vecNeg, arrScalarMult, List.map_cons, List.map_nil,
    List.sum_cons, List.sum_nil]
  norm_num [sqrt_nine]

/-- C10 as stated fails in `float` arithmetic: three spheres of radius 2 centred at
`(0,0,-5)` with diffuse colour `(200, 0, 0)` and albedo `(1, 0)`, one light of intensity
`1.275f` at the origin, ray from the origin down the negative z axis.  The hit point is
`(0,0,-3)` with unit normal `(0,0,1)` and `k = 1.275f = 10695475 / 2^23`; the product
`200 * k = 254.9999952...` rounds to `255.0f`, so `cast_ray` writes 255 in the red channel,
while the integer part of `min(255, 200 * k)` is 254. -/
theorem C10_rounded_product_counterexample :
    scene_intersect f32_sqrt 0 (⟨0, 0, 0⟩ : Vec3 F32) ⟨0, 0, -1⟩
        (List.take 3 [⟨⟨0, 0, -5⟩, 2, ⟨⟨200, 0, 0⟩, 1, 0, 50⟩⟩,
          ⟨⟨0, 0, -5⟩, 2, ⟨⟨200, 0, 0⟩, 1, 0, 50⟩⟩,
          ⟨⟨0, 0, -5⟩, 2, ⟨⟨200, 0, 0⟩, 1, 0, 50⟩⟩])
      = (true, some ⟨⟨0, 0, -3⟩, ⟨0, 0, 1⟩, ⟨⟨200, 0, 0⟩, 1, 0, 50⟩⟩) ∧
    (vecNorm Real.sqrt (⟨0, 0, 1⟩ : Vec3 ℝ) = 1 ∧
      vecNorm Real.sqrt (⟨0, 0, -1⟩ : Vec3 ℝ) = 1 ∧
      (1.275 : F32) = ⟨10695475 / 8388608⟩ ∧ (0 : ℝ) ≤ 10695475 / 8388608 ∧
      (⟨0, 0, 0⟩ : Vec3 ℝ) ≠ ⟨0, 0, -3⟩) ∧
    cast_ray f32_sqrt f32_powf 0 (⟨0, 0, 0⟩ : Vec3 F32) ⟨0, 0, -1⟩
        [⟨⟨0, 0, -5⟩, 2, ⟨⟨200, 0, 0⟩, 1, 0, 50⟩⟩,
          ⟨⟨0, 0, -5⟩, 2, ⟨⟨200, 0, 0⟩, 1, 0, 50⟩⟩,
          ⟨⟨0, 0, -5⟩, 2, ⟨⟨200, 0, 0⟩, 1, 0, 50⟩⟩]
        [⟨⟨0, 0, 0⟩, 1.275⟩]
      = some ⟨255, 0, 0⟩ ∧
    Nat.floor (min 255 ((200 : ℝ) * spec_k Real.sqrt (fun v e => v ^ e)
        (⟨0, 0, -1⟩ : Vec3 ℝ) [⟨⟨0, 0, 0⟩, 10695475 / 8388608⟩]
        ⟨⟨0, 0, -3⟩, ⟨0, 0, 1⟩, ⟨⟨200, 0, 0⟩, 1, 0, 50⟩⟩)) = 254 := by
  have hup : vecNorm Real.sqrt (⟨0, 0, 1⟩ : Vec3 ℝ) = 1 := by
    rw [vecNorm_eq_iff _ zero_le_one]
    norm_num [dotProduct]
  have hne : (⟨0, 0, 0⟩ : Vec3 ℝ) ≠ ⟨0, 0, -3⟩ := by
    intro h
    have := congrArg Vec3.z h
    norm_num at this
  refine ⟨by decide!, ⟨hup, vecNorm_down, by decide!, by norm_num, hne⟩, by decide!, ?_⟩
  rw [spec_k_rounding_example, Nat.floor_eq_iff (by norm_num)]
  norm_num

end Binary32Shading

section Binary32Values

/-- Known binary32 values reproduced by the model: `0.1f`, `1/3`, the square root of 2, and
the two ties `2^24 + 1` (rounded down to the even `2^24`) and `2^24 + 3` (rounded up to
`2^24 + 4`). -/
lemma f32_known_values :
    (0.1 : F32) = ⟨13421773 / 134217728⟩ ∧
    (1 : F32) / 3 = ⟨11184811 / 33554432⟩ ∧
    f32_sqrt 2 = ⟨11863283 / 8388608⟩ ∧
    ((16777217 : ℕ) : F32) = ⟨16777216⟩ ∧
    ((16777219 : ℕ) : F32) = ⟨16777220⟩ := by
  decide!

end Binary32Values

end TinyTracer
